import Mathlib

/-!
# Verification of the Sudan open-data provider layer

A shallow embedding of the provider data-fetch and normalization layer of the
`duckdb-sudan` extension: the TTL response cache (`src/sudan/cache.cpp`), the
year-filter encoders (`src/sudan/filter_pushdown.cpp`), and the five provider
fetchers (WorldBank, WHO, FAO, UNHCR, ILO under `src/sudan/*/`), together with
the per-query row cursor shared by every provider's `Execute`.

Modelling conventions:
* JSON documents are an inductive `Json` mirroring the yyjson value kinds that
  the code distinguishes (`yyjson_is_int` vs `yyjson_is_real` vs
  `yyjson_is_str` ...); `yyjson_obj_get` on a NULL/non-object value yields
  `none`, which the accessors propagate exactly as yyjson propagates NULL.
* The JSON reader `yyjson_read` and the HTTP transport `HttpClient::Get` are
  external collaborators and are passed in as function parameters
  (`jsonRead : String → Option Json`, `transport : String → HttpResponseData`).
* C++ doubles are modelled as `Rat`; machine integers as `Int`, with an
  explicit wrap (`toInt32`) where a 64-bit JSON integer is stored in an
  `int32_t` field.
* `std::chrono::steady_clock` timestamps are modelled as whole seconds (`Nat`);
  each cache operation takes the current time as an explicit argument.
* `std::stoi` / `std::stoll` / `std::stoul` / `std::stod` are modelled by
  executable parsers of their decimal forms (leading whitespace, optional
  sign, longest leading digit run, for `stod` an optional fraction part);
  `none` models the thrown exception the code catches.
* While loops whose bound is data-dependent (the WorldBank pagination loop)
  take an explicit fuel argument.
-/

namespace Sudan

/-! ## JSON values (yyjson model) -/

/-- A JSON value as classified by yyjson: the code distinguishes null, bool,
integer, real (double), string, array and object nodes. Object fields keep
insertion order (yyjson object iteration order). -/
inductive Json where
  | jnull : Json
  | jbool : Bool → Json
  | jint : Int → Json
  | jreal : Rat → Json
  | jstr : String → Json
  | jarr : List Json → Json
  | jobj : List (String × Json) → Json

/-- `yyjson_obj_get`: returns the value of the first field with the given key
when the input is an object, and NULL (`none`) otherwise — including when the
input itself is NULL. -/
def objGet (v : Option Json) (key : String) : Option Json :=
  match v with
  | some (.jobj fields) => (fields.find? (fun p => p.1 == key)).map (·.2)
  | _ => none

/-- `yyjson_arr_get`: index into an array value, NULL otherwise. -/
def arrGet (v : Option Json) (i : Nat) : Option Json :=
  match v with
  | some (.jarr elems) => elems.get? i
  | _ => none

/-- `yyjson_is_arr(v) && yyjson_arr_size(v) > 0` as one test. -/
def jsonArrNonempty (v : Option Json) : Bool :=
  match v with
  | some (.jarr (_ :: _)) => true
  | _ => false

/-! ## Numeric string conversion (std::stoi / std::stoll / std::stoul / std::stod) -/

/-- Value of a digit run (most significant first). -/
def digitsVal (ds : List Char) : Nat :=
  ds.foldl (fun a c => a * 10 + (c.toNat - 48)) 0

/-- Shared front end of the `std::sto*` family: skip leading whitespace, read
an optional sign, then the longest leading run of decimal digits; `none` when
no digit is found (the `std::invalid_argument` case the code catches). -/
def parseLeadingInt (s : String) : Option Int :=
  let cs := s.data.dropWhile Char.isWhitespace
  let (sign, rest) : Int × List Char :=
    match cs with
    | '-' :: r => (-1, r)
    | '+' :: r => (1, r)
    | r => (1, r)
  let ds := rest.takeWhile Char.isDigit
  if ds.isEmpty then none else some (sign * (digitsVal ds : Int))

/-- Model of `std::stoi`: decimal parse with the `int` range check
(out-of-range throws, which the code catches). -/
def stoiModel (s : String) : Option Int :=
  match parseLeadingInt s with
  | none => none
  | some v => if -(2 ^ 31) ≤ v ∧ v ≤ 2 ^ 31 - 1 then some v else none

/-- Model of `std::stoll`: decimal parse with the `long long` range check. -/
def stollModel (s : String) : Option Int :=
  match parseLeadingInt s with
  | none => none
  | some v => if -(2 ^ 63) ≤ v ∧ v ≤ 2 ^ 63 - 1 then some v else none

/-- Model of `std::stoul` on the SDMX key segments: a leading digit run, `none`
when there is none (the thrown case the code catches and maps to 0). -/
def stoulModel (s : String) : Option Nat :=
  let ds := s.data.takeWhile Char.isDigit
  if ds.isEmpty then none else some (digitsVal ds)

/-- Model of `std::stod` on decimal (non-exponent) forms: leading whitespace,
optional sign, digits with an optional `.` fraction part, at least one digit
overall; `none` models the thrown `std::invalid_argument`. -/
def stodModel (s : String) : Option Rat :=
  let cs := s.data.dropWhile Char.isWhitespace
  let (sign, rest) : Rat × List Char :=
    match cs with
    | '-' :: r => (-1, r)
    | '+' :: r => (1, r)
    | r => (1, r)
  let ds := rest.takeWhile Char.isDigit
  let rest2 := rest.dropWhile Char.isDigit
  match rest2 with
  | '.' :: fr =>
    let fds := fr.takeWhile Char.isDigit
    if ds.isEmpty ∧ fds.isEmpty then none
    else some (sign * ((digitsVal ds : Rat) + (digitsVal fds : Rat) / (10 ^ fds.length)))
  | _ => if ds.isEmpty then none else some (sign * (digitsVal ds : Rat))

/-- `static_cast<int64_t>` of a double: truncation toward zero. -/
def ratTruncToInt (q : Rat) : Int :=
  q.num.tdiv q.den

/-- Storing a JSON 64-bit integer into an `int32_t` field: two's-complement
wrap-around. -/
def toInt32 (n : Int) : Int :=
  (n + 2 ^ 31) % 2 ^ 32 - 2 ^ 31

/-- ASCII lowercasing (`StringUtil::Lower`). -/
def asciiLower (s : String) : String :=
  String.mk (s.data.map Char.toLower)

/-- `std::string::find(needle) != npos`: substring containment. -/
def strContains (haystack needle : String) : Bool :=
  decide (List.IsInfix needle.data haystack.data)

/-! ## ResponseCache (`src/sudan/cache.cpp`) -/

/-- `ResponseCache::CACHE_TTL_SECONDS`: entries expire after 5 minutes. -/
def CACHE_TTL_SECONDS : Int := 300

/-- One cached response: body plus the steady-clock second at which it was
stored. -/
structure CacheEntry where
  body : String
  timestamp : Nat
deriving Repr, DecidableEq

/-- The `unordered_map<string, CacheEntry>` behind `ResponseCache`, as an
association list. The C++ map has at most one binding per key; replacing or
erasing a key is therefore modelled by removing every binding of that key. -/
structure ResponseCache where
  entries : List (String × CacheEntry)
deriving Repr, DecidableEq

/-- `cache_.find(url)` -/
def cacheFind (c : ResponseCache) (url : String) : Option CacheEntry :=
  (c.entries.find? (fun p => p.1 == url)).map (·.2)

/-- `ResponseCache::Get`: empty string when the key is absent; when present,
computes the elapsed whole seconds since the entry was stored, erases the
entry and returns empty when `elapsed > CACHE_TTL_SECONDS`, and returns the
body otherwise. Returns the (possibly mutated) cache alongside the result. -/
def cacheGet (c : ResponseCache) (url : String) (now : Nat) : ResponseCache × String :=
  match cacheFind c url with
  | none => (c, "")
  | some e =>
    let elapsed : Int := (now : Int) - (e.timestamp : Int)
    if elapsed > CACHE_TTL_SECONDS then
      (⟨c.entries.filter (fun p => p.1 != url)⟩, "")
    else
      (c, e.body)

/-- `ResponseCache::Put`: `cache_[url] = entry` — insert or overwrite. -/
def cachePut (c : ResponseCache) (url : String) (body : String) (now : Nat) : ResponseCache :=
  ⟨(url, ⟨body, now⟩) :: c.entries.filter (fun p => p.1 != url)⟩

/-- `ResponseCache::Clear`. -/
def cacheClear (_ : ResponseCache) : ResponseCache :=
  ⟨[]⟩

/-! ## Year-filter encoders (`src/sudan/filter_pushdown.cpp`) -/

/-- `sudan::FilterResult` with its C++ member initializers. -/
structure FilterResult where
  has_year_filter : Bool := false
  year_start : Int := -1
  year_end : Int := -1
deriving Repr, DecidableEq

/-- `sudan::EncodeWorldBankYearFilter` -/
def EncodeWorldBankYearFilter (f : FilterResult) : String :=
  if !f.has_year_filter then ""
  else
    "date=" ++
      (if f.year_start > 0 ∧ f.year_end > 0 then
        toString f.year_start ++ ":" ++ toString f.year_end
      else if f.year_start > 0 then
        toString f.year_start ++ ":2100"
      else if f.year_end > 0 then
        "1900:" ++ toString f.year_end
      else "")

/-- `sudan::EncodeWHOYearFilter` -/
def EncodeWHOYearFilter (f : FilterResult) : String :=
  if !f.has_year_filter then ""
  else
    "$filter=" ++
      (if f.year_start > 0 then "TimeDim ge " ++ toString f.year_start else "") ++
      (if f.year_end > 0 then
        (if f.year_start > 0 then " and " else "") ++ "TimeDim le " ++ toString f.year_end
      else "")

/-- `sudan::EncodeFAOYearFilter` -/
def EncodeFAOYearFilter (f : FilterResult) : String :=
  if !f.has_year_filter then ""
  else
    (if f.year_start > 0 then "year_start=" ++ toString f.year_start else "") ++
    (if f.year_end > 0 then
      (if f.year_start > 0 then "&" else "") ++ "year_end=" ++ toString f.year_end
    else "")

/-- `sudan::EncodeUNHCRYearFilter` -/
def EncodeUNHCRYearFilter (f : FilterResult) : String :=
  if !f.has_year_filter then ""
  else
    (if f.year_start > 0 then "yearFrom=" ++ toString f.year_start else "") ++
    (if f.year_end > 0 then
      (if f.year_start > 0 then "&" else "") ++ "yearTo=" ++ toString f.year_end
    else "")

/-- `sudan::EncodeILOYearFilter` -/
def EncodeILOYearFilter (f : FilterResult) : String :=
  if !f.has_year_filter then ""
  else
    (if f.year_start > 0 then "startPeriod=" ++ toString f.year_start else "") ++
    (if f.year_end > 0 then
      (if f.year_start > 0 then "&" else "") ++ "endPeriod=" ++ toString f.year_end
    else "")

/-! ## HTTP transport (external collaborator) -/

/-- `HttpResponseData`, restricted to the fields the fetchers read. -/
structure HttpResponseData where
  status_code : Int
  body : String
  error : String
deriving Repr, DecidableEq

/-! ## ILO fetcher (`src/sudan/ilo/ilo_functions.cpp`) -/

/-- A `SudanILO::DataRow`. -/
structure ILODataRow where
  indicator : String
  country : String
  sex : String
  classif1 : String
  year : Int
  value : Rat
  has_value : Bool
deriving Repr, DecidableEq

/-- Dataflow id: the indicator prefixed with `DF_` when not already so. -/
def iloDataflow (indicator : String) : String :=
  if String.mk (indicator.data.take 3) = "DF_" then indicator else "DF_" ++ indicator

/-- The candidate wildcard key suffixes, 1 through 5 dots. -/
def iloKeySuffixes : List String := [".", "..", "...", "....", "....."]

/-- The URL stem before the wildcard dots: REF_AREA then `A` for Annual. -/
def iloBaseUrl (indicator country_iso3 : String) : String :=
  "https://sdmx.ilo.org/rest/data/ILO," ++ iloDataflow indicator ++ "/" ++ country_iso3 ++ ".A"

/-- The fixed query string appended after the wildcard dots. -/
def iloQuerySuffix : String := "?format=jsondata&detail=dataonly&lastNObservations=20"

/-- The full candidate URL for one key suffix. -/
def iloCandidateUrl (indicator country_iso3 ks : String) : String :=
  iloBaseUrl indicator country_iso3 ++ ks ++ iloQuerySuffix

/-- The success test of the probe loop: status 200, no error, non-empty body. -/
def iloResponseOk (r : HttpResponseData) : Bool :=
  r.status_code == 200 && r.error == "" && !(r.body == "")

/-- Result of the ILO probe loop: the URLs passed to the transport, the final
cache, and the body found (empty when every candidate failed). -/
structure ProbeResult where
  requested : List String
  cache : ResponseCache
  body : String

/-- The ILO key-suffix probe loop: for each candidate suffix in order, first
consult the cache; a non-empty cached body stops the probe. Otherwise issue
the HTTP request; a successful non-empty response is cached and stops the
probe; otherwise the next candidate is tried. -/
def iloProbeLoop (transport : String → HttpResponseData) (base suffix : String) (now : Nat) :
    List String → ResponseCache → ProbeResult
  | [], cache => ⟨[], cache, ""⟩
  | ks :: rest, cache =>
    let url := base ++ ks ++ suffix
    let got := cacheGet cache url now
    if got.2 ≠ "" then ⟨[], got.1, got.2⟩
    else
      let resp := transport url
      if iloResponseOk resp then
        ⟨[url], cachePut got.1 url resp.body now, resp.body⟩
      else
        let r := iloProbeLoop transport base suffix now rest got.1
        ⟨url :: r.requested, r.cache, r.body⟩

/-- The probe over all five candidate suffixes of `SudanILO::FetchILOData`. -/
def iloProbe (transport : String → HttpResponseData) (indicator country_iso3 : String)
    (now : Nat) (cache : ResponseCache) : ProbeResult :=
  iloProbeLoop transport (iloBaseUrl indicator country_iso3) iloQuerySuffix now
    iloKeySuffixes cache

/-- Split a colon-separated SDMX key into its segments (`""` segments kept),
exactly as the `start <= key.size()` / `find(':')` loop does. -/
def splitColons : List Char → List (List Char)
  | [] => [[]]
  | c :: rest =>
    if c = ':' then [] :: splitColons rest
    else
      match splitColons rest with
      | g :: gs => (c :: g) :: gs
      | [] => [[c]]

/-- `ParseKeyIndices`: each segment through `std::stoul`, 0 on failure. -/
def ParseKeyIndices (key : String) : List Nat :=
  (splitColons key.data).map (fun seg => (stoulModel (String.mk seg)).getD 0)

/-- `ExtractDimValues`: the `id` (else `name`, else `""`) of each entry of a
dimension's `values` array. -/
def ExtractDimValues (dim : Option Json) : List String :=
  match objGet dim "values" with
  | some (.jarr vals) =>
    vals.map (fun v =>
      match objGet (some v) "id" with
      | some (.jstr s) => s
      | _ =>
        match objGet (some v) "name" with
        | some (.jstr s) => s
        | _ => "")
  | _ => []

/-- A dimension: its id and the ids of its declared values. -/
structure DimInfo where
  id : String
  values : List String
deriving Repr, DecidableEq

/-- Build the `DimInfo` list from a `dimensions.series` / `.observation`
array. -/
def extractDims (dimArr : Option Json) : List DimInfo :=
  match dimArr with
  | some (.jarr dims) =>
    dims.map (fun d =>
      ⟨(match objGet (some d) "id" with
        | some (.jstr s) => s
        | _ => ""),
       ExtractDimValues (some d)⟩)
  | _ => []

/-- `LookupDimValue`: scan positions `i` below both lengths; at the first
position whose dimension id matches and whose key index is in range, return
that value; `""` when none is. -/
def LookupDimValue : List DimInfo → String → List Nat → String
  | [], _, _ => ""
  | _, _, [] => ""
  | d :: ds, dimId, i :: is =>
    if d.id = dimId ∧ i < d.values.length then d.values.getD i ""
    else LookupDimValue ds dimId is

/-- `ExtractObsValue`: the first element of the observation array when it is
numeric. -/
def ExtractObsValue (v : Option Json) : Option Rat :=
  match v with
  | some (.jarr (.jreal q :: _)) => some q
  | some (.jarr (.jint n :: _)) => some ((n : Int) : Rat)
  | _ => none

/-- `dataSets`: at the document root (SDMX-JSON 1.0) or, when absent or empty
there, under `data` (SDMX-JSON 2.0). -/
def iloDataSets (root : Json) : Option Json :=
  let ds := objGet (some root) "dataSets"
  if jsonArrNonempty ds then ds
  else objGet (objGet (some root) "data") "dataSets"

/-- `structure`: at the document root (1.0) or else `data.structures[0]`
(2.0). -/
def iloStructureVal (root : Json) : Option Json :=
  match objGet (some root) "structure" with
  | some v => some v
  | none =>
    match objGet (objGet (some root) "data") "structures" with
    | some (.jarr (s :: _)) => some s
    | _ => none

/-- Decode the `series` object of the first dataset: per series key, look up
SEX and AGE (falling back to CLASSIF1); per observation key, look up
TIME_PERIOD (`std::stoi`, 0 on failure) and the value; only observations with
a numeric value are kept (`if (row.has_value) rows.push_back(row)`). -/
def iloSeriesRows (indicator country_iso3 : String) (series_dims obs_dims : List DimInfo)
    (dataset : Option Json) : List ILODataRow :=
  match objGet dataset "series" with
  | some (.jobj sfields) =>
    sfields.flatMap (fun sp =>
      let sidx := ParseKeyIndices sp.1
      let sex := LookupDimValue series_dims "SEX" sidx
      let age := LookupDimValue series_dims "AGE" sidx
      let classif1 := if age = "" then LookupDimValue series_dims "CLASSIF1" sidx else age
      match objGet (some sp.2) "observations" with
      | some (.jobj ofields) =>
        ofields.filterMap (fun op =>
          let oidx := ParseKeyIndices op.1
          let time_str := LookupDimValue obs_dims "TIME_PERIOD" oidx
          let year := (stoiModel time_str).getD 0
          match ExtractObsValue (some op.2) with
          | some v => some ⟨indicator, country_iso3, sex, classif1, year, v, true⟩
          | none => none)
      | _ => [])
  | _ => []

/-- Result of a provider fetch: the URLs passed to the transport, the final
cache, and the rows appended to the caller's buffer. -/
structure FetchResult (ρ : Type) where
  requested : List String
  cache : ResponseCache
  rows : List ρ

/-- `SudanILO::FetchILOData`: probe the candidate key suffixes, then decode
the SDMX-JSON body (both schema generations); any failure contributes zero
rows. -/
def FetchILOData (jsonRead : String → Option Json) (transport : String → HttpResponseData)
    (indicator country_iso3 : String) (now : Nat) (cache : ResponseCache) :
    FetchResult ILODataRow :=
  let p := iloProbe transport indicator country_iso3 now cache
  if p.body = "" then ⟨p.requested, p.cache, []⟩
  else
    match jsonRead p.body with
    | none => ⟨p.requested, p.cache, []⟩
    | some root =>
      if !jsonArrNonempty (iloDataSets root) then ⟨p.requested, p.cache, []⟩
      else
        let dataset := arrGet (iloDataSets root) 0
        let dims := objGet (iloStructureVal root) "dimensions"
        let series_dims := extractDims (objGet dims "series")
        let obs_dims := extractDims (objGet dims "observation")
        ⟨p.requested, p.cache, iloSeriesRows indicator country_iso3 series_dims obs_dims dataset⟩

/-! ## Shared single-URL fetch shape (WHO, FAO, UNHCR)

Each of these fetchers repeats the same pattern: consult the cache; on a miss
issue the GET, bail out (zero rows) on non-200 status or transport error,
cache the body; then parse the body, bailing out (zero rows) on malformed
JSON, and otherwise decode the document into rows. -/

/-- The shared fetch-one-URL pattern, parameterized by the provider's
document-to-rows decoder. -/
def fetchCachedUrl {ρ : Type} (jsonRead : String → Option Json)
    (transport : String → HttpResponseData) (now : Nat) (cache : ResponseCache)
    (url : String) (docRows : Json → List ρ) : FetchResult ρ :=
  let got := cacheGet cache url now
  if got.2 = "" then
    let resp := transport url
    if resp.status_code = 200 ∧ resp.error = "" then
      let cache2 := cachePut got.1 url resp.body now
      match jsonRead resp.body with
      | none => ⟨[url], cache2, []⟩
      | some root => ⟨[url], cache2, docRows root⟩
    else ⟨[url], got.1, []⟩
  else
    match jsonRead got.2 with
    | none => ⟨[], got.1, []⟩
    | some root => ⟨[], got.1, docRows root⟩

/-! ## WorldBank fetcher (`src/sudan/worldbank/wb_functions.cpp`) -/

/-- A `SudanWorldBank::DataRow`. String members default-construct to `""`;
`year` is only assigned when `date` is a string (indeterminate in C++
otherwise, modelled as 0). -/
structure WBDataRow where
  indicator_id : String
  indicator_name : String
  country_id : String
  country_name : String
  year : Int
  value : Rat
  has_value : Bool
deriving Repr, DecidableEq

/-- Decode one element of the WorldBank `data` array. -/
def wbParseRow (elem : Json) : WBDataRow :=
  let ind := objGet (some elem) "indicator"
  let ctry := objGet (some elem) "country"
  let vh : Rat × Bool :=
    match objGet (some elem) "value" with
    | some (.jreal q) => (q, true)
    | some (.jint n) => (((n : Int) : Rat), true)
    | _ => (0, false)
  { indicator_id :=
      match objGet ind "id" with
      | some (.jstr s) => s
      | _ => ""
    indicator_name :=
      match objGet ind "value" with
      | some (.jstr s) => s
      | _ => ""
    country_id :=
      match objGet ctry "id" with
      | some (.jstr s) => s
      | _ => ""
    country_name :=
      match objGet ctry "value" with
      | some (.jstr s) => s
      | _ => ""
    year :=
      match objGet (some elem) "date" with
      | some (.jstr s) => (stoiModel s).getD 0
      | _ => 0
    value := vh.1
    has_value := vh.2 }

/-- The WorldBank base URL for one country and indicator. -/
def wbBaseUrl (indicator country_iso3 : String) : String :=
  "https://api.worldbank.org/v2/country/" ++ country_iso3 ++ "/indicator/" ++ indicator

/-- The full URL of one page: base, fixed query parameters, the page number,
and the year filter parameter when its encoding is non-empty. -/
def wbPageUrl (indicator country_iso3 : String) (year_filter : FilterResult)
    (page : Int) : String :=
  let url := wbBaseUrl indicator country_iso3 ++ "?format=json&per_page=1000&page=" ++
    toString page
  let year_param := EncodeWorldBankYearFilter year_filter
  if year_param ≠ "" then url ++ "&" ++ year_param else url

/-- Parse one WorldBank page body. `none` is the case where the fetch loop
breaks: unparsable JSON, or a root that is not an array of at least two
elements. Otherwise: the new `total_pages` when the metadata element (index
0) is an object with an integer `pages` field, and the decoded rows of the
data element (index 1) when it is an array. -/
def wbParsePage (jsonRead : String → Option Json) (body : String) :
    Option (Option Int × List WBDataRow) :=
  match jsonRead body with
  | some (.jarr elems) =>
    if elems.length < 2 then none
    else
      some
        ((match objGet (elems.get? 0) "pages" with
          | some (.jint n) => some n
          | _ => none),
         (match elems.get? 1 with
          | some (.jarr dataArr) => dataArr.map wbParseRow
          | _ => []))
  | _ => none

/-- The `while (page <= total_pages)` pagination loop of
`SudanWorldBank::FetchWorldBankData`, with an explicit fuel bound on the
number of iterations (the C++ loop's bound is the data-dependent
`total_pages`). Each iteration: cache lookup, on a miss the HTTP GET (break
on failure, else cache the body), parse (break on malformed/ill-shaped JSON),
update `total_pages` from the page metadata, append the page's rows, and move
to the next page. -/
def wbFetchLoop (jsonRead : String → Option Json) (transport : String → HttpResponseData)
    (indicator country_iso3 : String) (year_filter : FilterResult) (now : Nat) :
    Nat → Int → Int → ResponseCache → FetchResult WBDataRow
  | 0, _, _, cache => ⟨[], cache, []⟩
  | fuel + 1, page, total_pages, cache =>
    if page > total_pages then ⟨[], cache, []⟩
    else
      let url := wbPageUrl indicator country_iso3 year_filter page
      let got := cacheGet cache url now
      if got.2 = "" then
        let resp := transport url
        if resp.status_code = 200 ∧ resp.error = "" then
          let cache2 := cachePut got.1 url resp.body now
          match wbParsePage jsonRead resp.body with
          | none => ⟨[url], cache2, []⟩
          | some pr =>
            let r := wbFetchLoop jsonRead transport indicator country_iso3 year_filter now
              fuel (page + 1) (pr.1.getD total_pages) cache2
            ⟨url :: r.requested, r.cache, pr.2 ++ r.rows⟩
        else ⟨[url], got.1, []⟩
      else
        match wbParsePage jsonRead got.2 with
        | none => ⟨[], got.1, []⟩
        | some pr =>
          let r := wbFetchLoop jsonRead transport indicator country_iso3 year_filter now
            fuel (page + 1) (pr.1.getD total_pages) got.1
          ⟨r.requested, r.cache, pr.2 ++ r.rows⟩

/-- `SudanWorldBank::FetchWorldBankData`: the pagination loop started at
`page = 1` with `total_pages = 1`. -/
def FetchWorldBankData (jsonRead : String → Option Json)
    (transport : String → HttpResponseData) (indicator country_iso3 : String)
    (year_filter : FilterResult) (now : Nat) (fuel : Nat) (cache : ResponseCache) :
    FetchResult WBDataRow :=
  wbFetchLoop jsonRead transport indicator country_iso3 year_filter now fuel 1 1 cache

/-- The `for (country : bind_data.countries)` loop of
`SudanWorldBank::Init`: fetch each country in turn into one shared row
buffer; a country that contributes nothing does not stop the others. -/
def wbInitRows (jsonRead : String → Option Json) (transport : String → HttpResponseData)
    (indicator : String) (year_filter : FilterResult) (now fuel : Nat) :
    List String → ResponseCache → FetchResult WBDataRow
  | [], cache => ⟨[], cache, []⟩
  | c :: rest, cache =>
    let r := FetchWorldBankData jsonRead transport indicator c year_filter now fuel cache
    let r2 := wbInitRows jsonRead transport indicator year_filter now fuel rest r.cache
    ⟨r.requested ++ r2.requested, r2.cache, r.rows ++ r2.rows⟩

/-! ## WHO fetcher (`src/sudan/who/who_functions.cpp`) -/

/-- A `SudanWHO::DataRow`. `indicator_name` is never assigned by
`FetchWHOData` (the WHO GHO data response does not carry it). -/
structure WHODataRow where
  indicator_code : String
  indicator_name : String
  country : String
  year : Int
  sex : String
  value : Rat
  has_value : Bool
  region : String
deriving Repr, DecidableEq

/-- Decode one element of the WHO `value` array. `indicator_code` and
`country` start as the request's values and are overwritten when the
response carries them. -/
def whoParseRow (indicator country_iso3 : String) (elem : Json) : WHODataRow :=
  let vh : Rat × Bool :=
    match objGet (some elem) "NumericValue" with
    | some (.jreal q) => (q, true)
    | some (.jint n) => (((n : Int) : Rat), true)
    | _ => (0, false)
  { indicator_code :=
      match objGet (some elem) "IndicatorCode" with
      | some (.jstr s) => s
      | _ => indicator
    indicator_name := ""
    country :=
      match objGet (some elem) "SpatialDim" with
      | some (.jstr s) => s
      | _ => country_iso3
    year :=
      match objGet (some elem) "TimeDim" with
      | some (.jint n) => toInt32 n
      | some (.jstr s) => (stoiModel s).getD 0
      | _ => 0
    sex :=
      match objGet (some elem) "Dim1" with
      | some (.jstr s) => s
      | _ => ""
    value := vh.1
    has_value := vh.2
    region :=
      match objGet (some elem) "ParentLocation" with
      | some (.jstr s) => s
      | _ => "" }

/-- The WHO GHO OData URL for one country and indicator. -/
def whoUrl (indicator country_iso3 : String) : String :=
  "https://ghoapi.azureedge.net/api/" ++ indicator ++ "?$filter=SpatialDim eq '" ++
    country_iso3 ++ "'"

/-- Decode the WHO response document: the flat `value` array. -/
def whoDocRows (indicator country_iso3 : String) (root : Json) : List WHODataRow :=
  match objGet (some root) "value" with
  | some (.jarr l) => l.map (whoParseRow indicator country_iso3)
  | _ => []

/-- `SudanWHO::FetchWHOData`. -/
def FetchWHOData (jsonRead : String → Option Json) (transport : String → HttpResponseData)
    (indicator country_iso3 : String) (now : Nat) (cache : ResponseCache) :
    FetchResult WHODataRow :=
  fetchCachedUrl jsonRead transport now cache (whoUrl indicator country_iso3)
    (whoDocRows indicator country_iso3)

/-! ## FAO fetcher (`src/sudan/fao/fao_functions.cpp`) -/

/-- A `SudanFAO::DataRow`. -/
structure FAODataRow where
  dataset : String
  area : String
  item : String
  element : String
  year : Int
  value : Rat
  has_value : Bool
  unit : String
deriving Repr, DecidableEq

/-- `SudanFAO::GetFAOAreaCode`: ISO3 to the FAO numeric area code, falling
back to the ISO3 string itself when unmapped. -/
def GetFAOAreaCode (iso3 : String) : String :=
  match [("SDN", "276"), ("EGY", "59"), ("ETH", "238"), ("TCD", "39"),
         ("SSD", "277"), ("ERI", "178"), ("LBY", "124"), ("CAF", "37")].find?
      (fun p => p.1 == iso3) with
  | some p => p.2
  | none => iso3

/-- The `Value` coercion: numeric directly; a string through `std::stod`,
with a failed coercion leaving `has_value = false` (the `value` member is
left unassigned in C++; the claims only read `has_value` in that case, so it
is modelled as 0). -/
def faoParseValue (v : Option Json) : Rat × Bool :=
  match v with
  | some (.jreal q) => (q, true)
  | some (.jint n) => (((n : Int) : Rat), true)
  | some (.jstr s) =>
    match stodModel s with
    | some q => (q, true)
    | none => (0, false)
  | _ => (0, false)

/-- The `Year` coercion: integer directly (stored into an `int32_t`); a
string through `std::stoi` with 0 on failure; otherwise left unassigned in
C++ (modelled as 0). -/
def faoParseYear (v : Option Json) : Int :=
  match v with
  | some (.jint n) => toInt32 n
  | some (.jstr s) => (stoiModel s).getD 0
  | _ => 0

/-- Decode one element of the FAO `data` array: `none` when the record's
string `Element` does not contain the requested element name
(case-insensitive substring match); records without a string `Element` are
not filtered. -/
def faoParseRecord (dataset element_lower : String) (elem : Json) : Option FAODataRow :=
  let keep : Bool :=
    match objGet (some elem) "Element" with
    | some (.jstr name) => strContains (asciiLower name) element_lower
    | _ => true
  if !keep then none
  else
    some
      { dataset := dataset
        area :=
          match objGet (some elem) "Area" with
          | some (.jstr s) => s
          | _ => ""
        item :=
          match objGet (some elem) "Item" with
          | some (.jstr s) => s
          | _ => ""
        element :=
          match objGet (some elem) "Element" with
          | some (.jstr s) => s
          | _ => ""
        year := faoParseYear (objGet (some elem) "Year")
        value := (faoParseValue (objGet (some elem) "Value")).1
        has_value := (faoParseValue (objGet (some elem) "Value")).2
        unit :=
          match objGet (some elem) "Unit" with
          | some (.jstr s) => s
          | _ => "" }

/-- The FAOSTAT URL for one dataset and area code. -/
def faoUrl (dataset area_code : String) : String :=
  "https://fenixservices.fao.org/faostat/api/v1/en/data/" ++ dataset ++ "?area=" ++
    area_code ++ "&output_type=objects"

/-- Decode the FAO response document: the `data` array filtered by element
name. -/
def faoDocRows (dataset element_lower : String) (root : Json) : List FAODataRow :=
  match objGet (some root) "data" with
  | some (.jarr l) => l.filterMap (faoParseRecord dataset element_lower)
  | _ => []

/-- `SudanFAO::FetchFAOData`. -/
def FetchFAOData (jsonRead : String → Option Json) (transport : String → HttpResponseData)
    (dataset element country_iso3 : String) (now : Nat) (cache : ResponseCache) :
    FetchResult FAODataRow :=
  fetchCachedUrl jsonRead transport now cache
    (faoUrl dataset (GetFAOAreaCode country_iso3))
    (faoDocRows dataset (asciiLower element))

/-! ## UNHCR fetcher (`src/sudan/unhcr/unhcr_functions.cpp`) -/

/-- A `SudanUNHCR::DataRow`. -/
structure UNHCRDataRow where
  year : Int
  population_type : String
  country_origin : String
  country_origin_name : String
  country_asylum : String
  country_asylum_name : String
  value : Int
  has_value : Bool
deriving Repr, DecidableEq

/-- `SudanUNHCR::GetUNHCRFieldName`: user-facing population type (and its
aliases, case-insensitively) to the UNHCR JSON field name; unknown types pass
through lowercased. -/
def GetUNHCRFieldName (type_ : String) : String :=
  let type_lower := asciiLower type_
  if type_lower = "refugees" ∨ type_lower = "ref" then "refugees"
  else if type_lower = "idps" ∨ type_lower = "idp" then "idps"
  else if type_lower = "asylum_seekers" ∨ type_lower = "asylum" then "asylum_seekers"
  else if type_lower = "returned_refugees" ∨ type_lower = "returned" then "returned_refugees"
  else if type_lower = "stateless" then "stateless"
  else type_lower

/-- `SudanUNHCR::ParseUNHCRValue`: integer directly; a double truncated
toward zero; a string through `std::stoll`; 0 in every remaining case
(absent field, unparsable string, other JSON types). -/
def ParseUNHCRValue (v : Option Json) : Int :=
  match v with
  | some (.jint n) => n
  | some (.jreal q) => ratTruncToInt q
  | some (.jstr s) => (stollModel s).getD 0
  | _ => 0

/-- Build the row for one item whose requested-field value is non-zero.
`year` is only assigned when the `year` field is an integer (indeterminate in
C++ otherwise, modelled as 0); ISO codes are preferred over the plain
`coo`/`coa` codes. -/
def unhcrMkRow (field_name : String) (value : Int) (elem : Json) : UNHCRDataRow :=
  { year :=
      match objGet (some elem) "year" with
      | some (.jint n) => toInt32 n
      | _ => 0
    population_type := field_name
    country_origin :=
      match objGet (some elem) "coo_iso" with
      | some (.jstr s) => s
      | _ =>
        match objGet (some elem) "coo" with
        | some (.jstr s) => s
        | _ => ""
    country_origin_name :=
      match objGet (some elem) "coo_name" with
      | some (.jstr s) => s
      | _ => ""
    country_asylum :=
      match objGet (some elem) "coa_iso" with
      | some (.jstr s) => s
      | _ =>
        match objGet (some elem) "coa" with
        | some (.jstr s) => s
        | _ => ""
    country_asylum_name :=
      match objGet (some elem) "coa_name" with
      | some (.jstr s) => s
      | _ => ""
    value := value
    has_value := true }

/-- Decode the items of one UNHCR page: an item whose value for the requested
population-type field parses to 0 is skipped; all others are kept. -/
def unhcrItemsRows (field_name : String) (items : List Json) : List UNHCRDataRow :=
  items.filterMap (fun elem =>
    let value := ParseUNHCRValue (objGet (some elem) field_name)
    if value = 0 then none else some (unhcrMkRow field_name value elem))

/-- Decode the UNHCR response document: the `items` array. -/
def unhcrDocRows (field_name : String) (root : Json) : List UNHCRDataRow :=
  match objGet (some root) "items" with
  | some (.jarr l) => unhcrItemsRows field_name l
  | _ => []

/-- The UNHCR population URL for one role parameter (`coo` or `coa`) and
country. -/
def unhcrUrl (param_name country_iso3 : String) : String :=
  "https://api.unhcr.org/population/v1/population/?limit=10000&cf_type=iso&" ++
    param_name ++ "=" ++ country_iso3

/-- `SudanUNHCR::FetchUNHCRPage`. -/
def FetchUNHCRPage (jsonRead : String → Option Json) (transport : String → HttpResponseData)
    (url field_name : String) (now : Nat) (cache : ResponseCache) :
    FetchResult UNHCRDataRow :=
  fetchCachedUrl jsonRead transport now cache url (unhcrDocRows field_name)

/-- `SudanUNHCR::FetchUNHCRData`: the population endpoint queried twice per
country, once with the country as country of origin (`coo`) and once as
country of asylum (`coa`). -/
def FetchUNHCRData (jsonRead : String → Option Json) (transport : String → HttpResponseData)
    (population_type country_iso3 : String) (now : Nat) (cache : ResponseCache) :
    FetchResult UNHCRDataRow :=
  let field_name := GetUNHCRFieldName population_type
  let r1 := FetchUNHCRPage jsonRead transport (unhcrUrl "coo" country_iso3) field_name now cache
  let r2 := FetchUNHCRPage jsonRead transport (unhcrUrl "coa" country_iso3) field_name now r1.cache
  ⟨r1.requested ++ r2.requested, r2.cache, r1.rows ++ r2.rows⟩

/-! ## Row cursor (`Execute` of every provider) -/

/-- DuckDB's `STANDARD_VECTOR_SIZE`, the per-`Execute` output batch bound. -/
def STANDARD_VECTOR_SIZE : Nat := 2048

/-- The shared `Execute` shape of every provider: emit
`min(STANDARD_VECTOR_SIZE, rows.size() - current_row)` rows starting at
`current_row` (zero when exhausted, leaving the cursor in place), and advance
`current_row` by that amount. In C++ `rows.size() - current_row` is unsigned
arithmetic; under the reachable-state invariant `current_row ≤ rows.size()`
it coincides with this truncated `Nat` subtraction. -/
def cursorExecute {ρ β : Type} (emit : ρ → β) (rows : List ρ) (current_row : Nat) :
    Nat × List β :=
  let output_size := min STANDARD_VECTOR_SIZE (rows.length - current_row)
  if output_size = 0 then (current_row, [])
  else (current_row + output_size, ((rows.drop current_row).take output_size).map emit)

/-- Repeated `Execute` calls, concatenating the emitted batches. -/
def cursorDrain {ρ β : Type} (emit : ρ → β) (rows : List ρ) : Nat → Nat → List β
  | 0, _ => []
  | fuel + 1, cur =>
    (cursorExecute emit rows cur).2 ++
      cursorDrain emit rows fuel (cursorExecute emit rows cur).1

/-- One output row of `SudanWorldBank::Execute`: a row with
`has_value = false` is emitted with a null (`none`) value, never 0. -/
structure WBOutRow where
  indicator_id : String
  indicator_name : String
  country : String
  country_name : String
  year : Int
  value : Option Rat
deriving Repr, DecidableEq

/-- The per-row `SetValue` block of `SudanWorldBank::Execute`. -/
def wbEmitRow (r : WBDataRow) : WBOutRow :=
  ⟨r.indicator_id, r.indicator_name, r.country_id, r.country_name, r.year,
   if r.has_value then some r.value else none⟩

/-- `SudanWorldBank::State`. -/
structure WBState where
  rows : List WBDataRow
  current_row : Nat
deriving Repr, DecidableEq

/-- `SudanWorldBank::Execute`. -/
def wbExecute (s : WBState) : WBState × List WBOutRow :=
  (⟨s.rows, (cursorExecute wbEmitRow s.rows s.current_row).1⟩,
   (cursorExecute wbEmitRow s.rows s.current_row).2)

/-- One output row of `SudanILO::Execute`: empty `sex`/`classif1` strings are
emitted as nulls, and `has_value = false` as a null value. -/
structure ILOOutRow where
  indicator : String
  country : String
  sex : Option String
  classif1 : Option String
  year : Int
  value : Option Rat
deriving Repr, DecidableEq

/-- The per-row `SetValue` block of `SudanILO::Execute`. -/
def iloEmitRow (r : ILODataRow) : ILOOutRow :=
  ⟨r.indicator, r.country,
   if r.sex = "" then none else some r.sex,
   if r.classif1 = "" then none else some r.classif1,
   r.year,
   if r.has_value then some r.value else none⟩

/-- `SudanILO::State`. -/
structure ILOState where
  rows : List ILODataRow
  current_row : Nat
deriving Repr, DecidableEq

/-- `SudanILO::Execute`. -/
def iloExecute (s : ILOState) : ILOState × List ILOOutRow :=
  (⟨s.rows, (cursorExecute iloEmitRow s.rows s.current_row).1⟩,
   (cursorExecute iloEmitRow s.rows s.current_row).2)

/-! ## Country registry and Bind (`src/sudan/providers.cpp`, per-provider `Bind`) -/

/-- A supported country (`sudan::CountryInfo`). The Arabic display name
(`name_ar`) is carried by the source table but read by no code under
verification, so it is omitted here. -/
structure CountryInfo where
  iso3 : String
  iso2 : String
  name : String
deriving Repr, DecidableEq

/-- `sudan::SUPPORTED_COUNTRIES`: Sudan and its neighbors. -/
def SUPPORTED_COUNTRIES : List CountryInfo :=
  [⟨"SDN", "SD", "Sudan"⟩,
   ⟨"EGY", "EG", "Egypt"⟩,
   ⟨"ETH", "ET", "Ethiopia"⟩,
   ⟨"TCD", "TD", "Chad"⟩,
   ⟨"SSD", "SS", "South Sudan"⟩,
   ⟨"ERI", "ER", "Eritrea"⟩,
   ⟨"LBY", "LY", "Libya"⟩,
   ⟨"CAF", "CF", "Central African Republic"⟩]

/-- `sudan::NormalizeCountryCode`: an ISO3 or ISO2 code of a supported
country maps to its ISO3; anything else passes through unchanged. -/
def NormalizeCountryCode (code : String) : String :=
  match SUPPORTED_COUNTRIES.find? (fun c => c.iso3 == code || c.iso2 == code) with
  | some c => c.iso3
  | none => code

/-- The shared `countries` named-parameter handling of every provider's
`Bind`: normalize each given code; default to `["SDN"]` when the parameter
is absent or yields an empty list. -/
def bindCountries (countries_arg : Option (List String)) : List String :=
  let countries :=
    match countries_arg with
    | some items => items.map NormalizeCountryCode
    | none => []
  if countries.isEmpty then ["SDN"] else countries

/-- `SudanWorldBank::BindData`: `year_filter` keeps its member initializers
(the constructor only sets `indicator` and `countries`). -/
structure WBBindData where
  indicator : String
  countries : List String
  year_filter : FilterResult
deriving Repr, DecidableEq

/-- `SudanWorldBank::Bind`: an empty indicator fails the query immediately. -/
def wbBind (indicator : String) (countries_arg : Option (List String)) :
    Except String WBBindData :=
  if indicator = "" then
    .error "SUDAN: The indicator parameter cannot be empty."
  else
    .ok ⟨indicator, bindCountries countries_arg, {}⟩

/-- `SudanWHO::BindData`. -/
structure WHOBindData where
  indicator : String
  countries : List String
deriving Repr, DecidableEq

/-- `SudanWHO::Bind`. -/
def whoBind (indicator : String) (countries_arg : Option (List String)) :
    Except String WHOBindData :=
  if indicator = "" then
    .error "SUDAN: The indicator parameter cannot be empty for SUDAN_WHO()."
  else
    .ok ⟨indicator, bindCountries countries_arg⟩

/-- `SudanILO::BindData`. -/
structure ILOBindData where
  indicator : String
  countries : List String
deriving Repr, DecidableEq

/-- `SudanILO::Bind`. -/
def iloBind (indicator : String) (countries_arg : Option (List String)) :
    Except String ILOBindData :=
  if indicator = "" then
    .error "SUDAN: The indicator parameter cannot be empty for SUDAN_ILO()."
  else
    .ok ⟨indicator, bindCountries countries_arg⟩

/-- `SudanFAO::BindData`. -/
structure FAOBindData where
  dataset : String
  element : String
  countries : List String
deriving Repr, DecidableEq

/-- `SudanFAO::Bind`: the dataset is checked first, then the element. -/
def faoBind (dataset element : String) (countries_arg : Option (List String)) :
    Except String FAOBindData :=
  if dataset = "" then
    .error "SUDAN: The dataset parameter cannot be empty for SUDAN_FAO()."
  else if element = "" then
    .error "SUDAN: The element parameter cannot be empty for SUDAN_FAO()."
  else
    .ok ⟨dataset, element, bindCountries countries_arg⟩

/-- `SudanUNHCR::BindData`. -/
structure UNHCRBindData where
  population_type : String
  countries : List String
deriving Repr, DecidableEq

/-- `SudanUNHCR::Bind`. -/
def unhcrBind (population_type : String) (countries_arg : Option (List String)) :
    Except String UNHCRBindData :=
  if population_type = "" then
    .error "SUDAN: The population_type parameter cannot be empty for SUDAN_UNHCR(). Valid types: 'refugees', 'idps', 'asylum_seekers', 'returned_refugees', 'stateless'."
  else
    .ok ⟨population_type, bindCountries countries_arg⟩

/-! ## Mock collaborators used by concrete witnesses -/

/-- A mock transport that succeeds only on the 3-dot candidate URL. -/
def iloMockTransport (url : String) : HttpResponseData :=
  if url = iloCandidateUrl "TRU" "SDN" "..." then ⟨200, "payload", ""⟩
  else ⟨404, "", "connection failed"⟩

/-- A mock WorldBank transport: 200 with body `B1` on the page-1 URL, 200
with body `B2` on the page-2 URL, 404 otherwise. -/
def wbMockTransport (url : String) : HttpResponseData :=
  if url = wbPageUrl "SP.POP.TOTL" "SDN" ⟨false, -1, -1⟩ 1 then ⟨200, "B1", ""⟩
  else if url = wbPageUrl "SP.POP.TOTL" "SDN" ⟨false, -1, -1⟩ 2 then ⟨200, "B2", ""⟩
  else ⟨404, "", "not found"⟩

/-- A mock JSON reader for the two WorldBank mock bodies, each reporting
`pages = 2` and an empty data array. -/
def wbMockJsonRead (body : String) : Option Json :=
  if body = "B1" ∨ body = "B2" then
    some (.jarr [.jobj [("pages", .jint 2)], .jarr []])
  else none

/-- A transport that always fails. -/
def failTransport : String → HttpResponseData := fun _ => ⟨404, "", "connection refused"⟩

/-- A JSON reader that parses nothing. -/
def noneJsonRead : String → Option Json := fun _ => none

/-! ## Theorems -/

/-- Searching an association list for a key after filtering that key out finds
nothing. -/
theorem find_filter_ne_eq_none (l : List (String × CacheEntry)) (K : String) :
    (l.filter (fun p => p.1 != K)).find? (fun p => p.1 == K) = none := by
  apply List.find?_eq_none.mpr
  intro x hx
  simp only [List.mem_filter, bne_iff_ne, ne_eq] at hx
  simp [hx.2]

/-- **C1.** For every key `K` and body `B`, `ResponseCache::Put(K, B)` at time
`t` followed by `Get(K)` at time `t' ≥ t` returns `B` while the elapsed time
`t' - t` is at most 300 seconds (the TTL); once it exceeds 300 seconds,
`Get(K)` erases the entry as a side effect and returns the absent marker `""`,
and every subsequent `Get(K)` before a new `Put` also returns `""`. -/
theorem cache_ttl_put_get (c : ResponseCache) (K B : String) (t t' : Nat) (hle : t ≤ t') :
    (t' - t ≤ 300 → cacheGet (cachePut c K B t) K t' = (cachePut c K B t, B)) ∧
    (300 < t' - t →
      (cacheGet (cachePut c K B t) K t').2 = "" ∧
      cacheFind (cacheGet (cachePut c K B t) K t').1 K = none ∧
      ∀ t'' : Nat, (cacheGet (cacheGet (cachePut c K B t) K t').1 K t'').2 = "") := by
  have hfind : cacheFind (cachePut c K B t) K = some ⟨B, t⟩ := by
    simp [cacheFind, cachePut, List.find?]
  constructor
  · intro h
    have hnot : ¬ ((t' : Int) - (t : Int) > CACHE_TTL_SECONDS) := by
      simp only [CACHE_TTL_SECONDS]
      omega
    simp [cacheGet, hfind, hnot]
  · intro h
    have hgt : ((t' : Int) - (t : Int) > CACHE_TTL_SECONDS) := by
      simp only [CACHE_TTL_SECONDS]
      omega
    have hres : cacheGet (cachePut c K B t) K t' =
        (⟨(cachePut c K B t).entries.filter (fun p => p.1 != K)⟩, "") := by
      simp [cacheGet, hfind, hgt]
    refine ⟨by rw [hres], ?_, ?_⟩
    · rw [hres]
      simp [cacheFind, find_filter_ne_eq_none]
    · intro t''
      rw [hres]
      have h2 : cacheFind ⟨(cachePut c K B t).entries.filter (fun p => p.1 != K)⟩ K = none := by
        simp [cacheFind, find_filter_ne_eq_none]
      simp [cacheGet, h2]

/-- Witness for `cache_ttl_put_get`: a fresh entry read 100 seconds after the
`Put` is returned; read 301 seconds after the `Put` it is absent. -/
theorem cache_ttl_put_get_witness :
    (cacheGet (cachePut ⟨[]⟩ "k" "v" 0) "k" 100 = (cachePut ⟨[]⟩ "k" "v" 0, "v")) ∧
    (cacheGet (cachePut ⟨[]⟩ "k" "v" 0) "k" 301).2 = "" :=
  ⟨(cache_ttl_put_get ⟨[]⟩ "k" "v" 0 100 (by decide)).1 (by decide),
   ((cache_ttl_put_get ⟨[]⟩ "k" "v" 0 301 (by decide)).2 (by decide)).1⟩

/-- **C7.** `EncodeWorldBankYearFilter` maps `{true, 2010, 2023}` to
`"date=2010:2023"`, `{true, 2010, -1}` to `"date=2010:2100"` (end defaults to
2100), and `{true, -1, 2023}` to `"date=1900:2023"` (start defaults to 1900);
and each of the five provider encoders returns `""` whenever
`has_year_filter` is false. -/
theorem year_filter_encoders_spec :
    EncodeWorldBankYearFilter ⟨true, 2010, 2023⟩ = "date=2010:2023" ∧
    EncodeWorldBankYearFilter ⟨true, 2010, -1⟩ = "date=2010:2100" ∧
    EncodeWorldBankYearFilter ⟨true, -1, 2023⟩ = "date=1900:2023" ∧
    ∀ f : FilterResult, f.has_year_filter = false →
      EncodeWorldBankYearFilter f = "" ∧ EncodeWHOYearFilter f = "" ∧
      EncodeFAOYearFilter f = "" ∧ EncodeUNHCRYearFilter f = "" ∧
      EncodeILOYearFilter f = "" := by
  refine ⟨by decide, by decide, by decide, ?_⟩
  intro f hf
  simp [EncodeWorldBankYearFilter, EncodeWHOYearFilter, EncodeFAOYearFilter,
        EncodeUNHCRYearFilter, EncodeILOYearFilter, hf]

/-- The pagination loop stops as soon as `page > total_pages`. -/
theorem wbFetchLoop_stop (jsonRead : String → Option Json)
    (transport : String → HttpResponseData) (indicator country_iso3 : String)
    (year_filter : FilterResult) (now fuel : Nat) (page total_pages : Int)
    (cache : ResponseCache) (h : page > total_pages) :
    wbFetchLoop jsonRead transport indicator country_iso3 year_filter now (fuel + 1)
      page total_pages cache = ⟨[], cache, []⟩ := by
  simp [wbFetchLoop, h]

/-- One pagination step on a cache miss with a successful, parsable response:
the page URL is requested, its body cached, its rows appended, and the loop
continues at the next page with the metadata's page count. -/
theorem wbFetchLoop_step (jsonRead : String → Option Json)
    (transport : String → HttpResponseData) (indicator country_iso3 : String)
    (year_filter : FilterResult) (now fuel : Nat) (page total_pages : Int)
    (cache : ResponseCache) (pr : Option Int × List WBDataRow)
    (h : ¬ page > total_pages)
    (hmiss : (cacheGet cache (wbPageUrl indicator country_iso3 year_filter page) now).2 = "")
    (hok : (transport (wbPageUrl indicator country_iso3 year_filter page)).status_code = 200 ∧
      (transport (wbPageUrl indicator country_iso3 year_filter page)).error = "")
    (hparse : wbParsePage jsonRead
      (transport (wbPageUrl indicator country_iso3 year_filter page)).body = some pr) :
    wbFetchLoop jsonRead transport indicator country_iso3 year_filter now (fuel + 1)
        page total_pages cache =
      ⟨wbPageUrl indicator country_iso3 year_filter page ::
        (wbFetchLoop jsonRead transport indicator country_iso3 year_filter now fuel
          (page + 1) (pr.1.getD total_pages)
          (cachePut (cacheGet cache (wbPageUrl indicator country_iso3 year_filter page) now).1
            (wbPageUrl indicator country_iso3 year_filter page)
            (transport (wbPageUrl indicator country_iso3 year_filter page)).body now)).requested,
       (wbFetchLoop jsonRead transport indicator country_iso3 year_filter now fuel
          (page + 1) (pr.1.getD total_pages)
          (cachePut (cacheGet cache (wbPageUrl indicator country_iso3 year_filter page) now).1
            (wbPageUrl indicator country_iso3 year_filter page)
            (transport (wbPageUrl indicator country_iso3 year_filter page)).body now)).cache,
       pr.2 ++
        (wbFetchLoop jsonRead transport indicator country_iso3 year_filter now fuel
          (page + 1) (pr.1.getD total_pages)
          (cachePut (cacheGet cache (wbPageUrl indicator country_iso3 year_filter page) now).1
            (wbPageUrl indicator country_iso3 year_filter page)
            (transport (wbPageUrl indicator country_iso3 year_filter page)).body now)).rows⟩ := by
  simp [wbFetchLoop, h, hmiss, hok, hparse]

/-- Left cancellation for string append. -/
theorem string_append_left_cancel {a b c : String} (h : a ++ b = a ++ c) : b = c := by
  have hd := congrArg String.data h
  simp only [String.data_append] at hd
  exact String.ext (List.append_cancel_left hd)

/-- Right cancellation for string append. -/
theorem string_append_right_cancel {a b c : String} (h : a ++ c = b ++ c) : a = b := by
  have hd := congrArg String.data h
  simp only [String.data_append] at hd
  exact String.ext (List.append_cancel_right hd)

/-- The page-1 and page-2 URLs differ (they differ exactly at the page
number). -/
theorem wbPageUrl_one_ne_two (indicator country_iso3 : String) (f : FilterResult) :
    wbPageUrl indicator country_iso3 f 1 ≠ wbPageUrl indicator country_iso3 f 2 := by
  intro h
  simp only [wbPageUrl] at h
  by_cases hyp : EncodeWorldBankYearFilter f ≠ ""
  · rw [if_pos hyp, if_pos hyp] at h
    exact absurd
      (string_append_left_cancel (string_append_right_cancel (string_append_right_cancel h)))
      (by decide)
  · rw [if_neg hyp, if_neg hyp] at h
    exact absurd (string_append_left_cancel h) (by decide)

/-- **C4.** `FetchWorldBankData` reads `total_pages` from the `pages` field
of the metadata element (index 0) of the 2-element top-level response array
and loops from page 1 until `page > total_pages`, caching each page under its
full URL including the page number: for responses reporting `pages = 2` it
requests exactly the page-1 and page-2 URLs, in order, caches each body under
its page URL, and appends the rows of both pages in page order. -/
theorem wb_pagination_two_pages (jsonRead : String → Option Json)
    (transport : String → HttpResponseData) (indicator country_iso3 : String)
    (year_filter : FilterResult) (now fuel : Nat)
    (b1 b2 : String) (m1 m2 : List (String × Json)) (d1 d2 : List Json)
    (ht1 : transport (wbPageUrl indicator country_iso3 year_filter 1) = ⟨200, b1, ""⟩)
    (ht2 : transport (wbPageUrl indicator country_iso3 year_filter 2) = ⟨200, b2, ""⟩)
    (hp1 : jsonRead b1 = some (.jarr [.jobj m1, .jarr d1]))
    (hp2 : jsonRead b2 = some (.jarr [.jobj m2, .jarr d2]))
    (hm1 : objGet (some (.jobj m1)) "pages" = some (.jint 2))
    (hm2 : objGet (some (.jobj m2)) "pages" = some (.jint 2)) :
    (FetchWorldBankData jsonRead transport indicator country_iso3 year_filter now
        (fuel + 3) ⟨[]⟩).requested =
      [wbPageUrl indicator country_iso3 year_filter 1,
       wbPageUrl indicator country_iso3 year_filter 2] ∧
    (FetchWorldBankData jsonRead transport indicator country_iso3 year_filter now
        (fuel + 3) ⟨[]⟩).rows = d1.map wbParseRow ++ d2.map wbParseRow ∧
    cacheFind (FetchWorldBankData jsonRead transport indicator country_iso3 year_filter now
        (fuel + 3) ⟨[]⟩).cache (wbPageUrl indicator country_iso3 year_filter 1) =
      some ⟨b1, now⟩ ∧
    cacheFind (FetchWorldBankData jsonRead transport indicator country_iso3 year_filter now
        (fuel + 3) ⟨[]⟩).cache (wbPageUrl indicator country_iso3 year_filter 2) =
      some ⟨b2, now⟩ := by
  have hne := wbPageUrl_one_ne_two indicator country_iso3 year_filter
  have hbeq : (wbPageUrl indicator country_iso3 year_filter 1 ==
      wbPageUrl indicator country_iso3 year_filter 2) = false := by
    simpa using hne
  have hbeq' : (wbPageUrl indicator country_iso3 year_filter 2 ==
      wbPageUrl indicator country_iso3 year_filter 1) = false := by
    simpa using (Ne.symm hne)
  have hparse1 : wbParsePage jsonRead
      (transport (wbPageUrl indicator country_iso3 year_filter 1)).body =
      some (some 2, d1.map wbParseRow) := by
    rw [ht1]
    simp [wbParsePage, hp1, hm1]
  have hparse2 : wbParsePage jsonRead
      (transport (wbPageUrl indicator country_iso3 year_filter 2)).body =
      some (some 2, d2.map wbParseRow) := by
    rw [ht2]
    simp [wbParsePage, hp2, hm2]
  have hstep1 := wbFetchLoop_step jsonRead transport indicator country_iso3 year_filter now
    (fuel + 2) 1 1 ⟨[]⟩ (some 2, d1.map wbParseRow) (by norm_num) rfl
    (by rw [ht1]; exact ⟨rfl, rfl⟩) hparse1
  have hmiss2 : (cacheGet
      (cachePut (cacheGet ⟨[]⟩ (wbPageUrl indicator country_iso3 year_filter 1) now).1
        (wbPageUrl indicator country_iso3 year_filter 1)
        (transport (wbPageUrl indicator country_iso3 year_filter 1)).body now)
      (wbPageUrl indicator country_iso3 year_filter 2) now).2 = "" := by
    simp [cacheGet, cacheFind, cachePut, hbeq]
  have hstep2 := wbFetchLoop_step jsonRead transport indicator country_iso3 year_filter now
    (fuel + 1) 2 2
    (cachePut (cacheGet ⟨[]⟩ (wbPageUrl indicator country_iso3 year_filter 1) now).1
      (wbPageUrl indicator country_iso3 year_filter 1)
      (transport (wbPageUrl indicator country_iso3 year_filter 1)).body now)
    (some 2, d2.map wbParseRow) (by norm_num) hmiss2
    (by rw [ht2]; exact ⟨rfl, rfl⟩) hparse2
  have hstop := wbFetchLoop_stop jsonRead transport indicator country_iso3 year_filter now
    fuel 3 2
    (cachePut (cacheGet
        (cachePut (cacheGet ⟨[]⟩ (wbPageUrl indicator country_iso3 year_filter 1) now).1
          (wbPageUrl indicator country_iso3 year_filter 1)
          (transport (wbPageUrl indicator country_iso3 year_filter 1)).body now)
        (wbPageUrl indicator country_iso3 year_filter 2) now).1
      (wbPageUrl indicator country_iso3 year_filter 2)
      (transport (wbPageUrl indicator country_iso3 year_filter 2)).body now)
    (by norm_num)
  have hrun : FetchWorldBankData jsonRead transport indicator country_iso3 year_filter now
      (fuel + 3) ⟨[]⟩ =
      ⟨[wbPageUrl indicator country_iso3 year_filter 1,
        wbPageUrl indicator country_iso3 year_filter 2],
       cachePut (cacheGet
          (cachePut (cacheGet ⟨[]⟩ (wbPageUrl indicator country_iso3 year_filter 1) now).1
            (wbPageUrl indicator country_iso3 year_filter 1)
            (transport (wbPageUrl indicator country_iso3 year_filter 1)).body now)
          (wbPageUrl indicator country_iso3 year_filter 2) now).1
        (wbPageUrl indicator country_iso3 year_filter 2)
        (transport (wbPageUrl indicator country_iso3 year_filter 2)).body now,
       d1.map wbParseRow ++ (d2.map wbParseRow ++ [])⟩ := by
    show wbFetchLoop jsonRead transport indicator country_iso3 year_filter now
      ((fuel + 2) + 1) 1 1 ⟨[]⟩ = _
    rw [hstep1]
    simp only [Option.getD_some]
    rw [show ((1 : Int) + 1) = 2 from rfl, show (fuel + 2) = (fuel + 1) + 1 from rfl, hstep2]
    simp only [Option.getD_some]
    rw [show ((2 : Int) + 1) = 3 from rfl, hstop]
  refine ⟨by rw [hrun], by rw [hrun]; simp, ?_, ?_⟩
  · rw [hrun]
    simp [cacheGet, cacheFind, cachePut, hbeq, hbeq', ht1, ht2, hne]
  · rw [hrun]
    simp [cacheGet, cacheFind, cachePut, hbeq, hbeq', ht1, ht2, hne]

/-- Witness for `wb_pagination_two_pages`: against the mocks reporting
`pages = 2`, exactly the page-1 and page-2 URLs are requested. -/
theorem wb_pagination_two_pages_witness :
    wbMockTransport (wbPageUrl "SP.POP.TOTL" "SDN" ⟨false, -1, -1⟩ 1) = ⟨200, "B1", ""⟩ ∧
    wbMockTransport (wbPageUrl "SP.POP.TOTL" "SDN" ⟨false, -1, -1⟩ 2) = ⟨200, "B2", ""⟩ ∧
    wbMockJsonRead "B1" = some (.jarr [.jobj [("pages", .jint 2)], .jarr []]) ∧
    wbMockJsonRead "B2" = some (.jarr [.jobj [("pages", .jint 2)], .jarr []]) ∧
    (FetchWorldBankData wbMockJsonRead wbMockTransport "SP.POP.TOTL" "SDN"
        ⟨false, -1, -1⟩ 0 (0 + 3) ⟨[]⟩).requested =
      [wbPageUrl "SP.POP.TOTL" "SDN" ⟨false, -1, -1⟩ 1,
       wbPageUrl "SP.POP.TOTL" "SDN" ⟨false, -1, -1⟩ 2] :=
  ⟨rfl, rfl, rfl, rfl,
   (wb_pagination_two_pages wbMockJsonRead wbMockTransport "SP.POP.TOTL" "SDN"
     ⟨false, -1, -1⟩ 0 0 "B1" "B2" [("pages", .jint 2)] [("pages", .jint 2)] [] []
     rfl rfl rfl rfl rfl rfl).1⟩

/-- A single-URL fetch whose transport response fails (non-200 status or an
error) contributes zero rows and leaves the cache as the lookup left it. -/
theorem fetchCachedUrl_error {ρ : Type} (jsonRead : String → Option Json)
    (transport : String → HttpResponseData) (now : Nat) (cache : ResponseCache)
    (url : String) (docRows : Json → List ρ)
    (hmiss : (cacheGet cache url now).2 = "")
    (herr : (transport url).status_code ≠ 200 ∨ (transport url).error ≠ "") :
    (fetchCachedUrl jsonRead transport now cache url docRows).rows = [] ∧
    (fetchCachedUrl jsonRead transport now cache url docRows).cache =
      (cacheGet cache url now).1 := by
  rcases herr with h | h <;> simp [fetchCachedUrl, hmiss, h]

/-- A single-URL fetch whose (fresh) response body is malformed JSON
contributes zero rows. -/
theorem fetchCachedUrl_malformed {ρ : Type} (jsonRead : String → Option Json)
    (transport : String → HttpResponseData) (now : Nat) (cache : ResponseCache)
    (url : String) (docRows : Json → List ρ)
    (hmiss : (cacheGet cache url now).2 = "")
    (hjson : jsonRead (transport url).body = none) :
    (fetchCachedUrl jsonRead transport now cache url docRows).rows = [] := by
  by_cases hok : (transport url).status_code = 200 ∧ (transport url).error = "" <;>
    simp [fetchCachedUrl, hmiss, hok, hjson]

/-- One failing probe step on an empty cache: the URL is requested and the
loop moves on to the next candidate. -/
theorem iloProbeLoop_cons_fail (transport : String → HttpResponseData)
    (base suffix : String) (now : Nat) (ks : String) (rest : List String)
    (hf : iloResponseOk (transport (base ++ ks ++ suffix)) = false) :
    iloProbeLoop transport base suffix now (ks :: rest) ⟨[]⟩ =
      ⟨(base ++ ks ++ suffix) :: (iloProbeLoop transport base suffix now rest ⟨[]⟩).requested,
       (iloProbeLoop transport base suffix now rest ⟨[]⟩).cache,
       (iloProbeLoop transport base suffix now rest ⟨[]⟩).body⟩ := by
  simp [iloProbeLoop, cacheGet, cacheFind, hf]

/-- One successful probe step on an empty cache: the URL is requested, its
body cached, and the loop stops. -/
theorem iloProbeLoop_cons_success (transport : String → HttpResponseData)
    (base suffix : String) (now : Nat) (ks : String) (rest : List String)
    (hs : iloResponseOk (transport (base ++ ks ++ suffix)) = true) :
    iloProbeLoop transport base suffix now (ks :: rest) ⟨[]⟩ =
      ⟨[base ++ ks ++ suffix],
       cachePut ⟨[]⟩ (base ++ ks ++ suffix) (transport (base ++ ks ++ suffix)).body now,
       (transport (base ++ ks ++ suffix)).body⟩ := by
  simp [iloProbeLoop, cacheGet, cacheFind, hs]

/-- Candidate URLs built from key suffixes of different lengths differ. -/
theorem iloCandidateUrl_ne_of_ks_length (indicator country_iso3 : String) (k1 k2 : String)
    (h : k1.length ≠ k2.length) :
    iloCandidateUrl indicator country_iso3 k1 ≠ iloCandidateUrl indicator country_iso3 k2 := by
  intro heq
  apply h
  have hlen := congrArg String.length heq
  simp only [iloCandidateUrl, String.length_append] at hlen
  omega

/-- **C2.** `FetchILOData` (after prefixing the dataflow id with `DF_` when
not already present) probes the candidate key suffixes `.`, `..`, `...`,
`....`, `.....` in increasing dot-count order and stops at the first
candidate whose URL is cached or whose transport response is successful
(status 200, no error) and non-empty: with a transport that fails on the 1-
and 2-dot suffixes and succeeds on the 3-dot suffix, exactly the first three
candidate URLs are requested, in order, and the 4- and 5-dot URLs are never
requested. -/
theorem ilo_probe_first_success (transport : String → HttpResponseData)
    (indicator country_iso3 : String) (now : Nat)
    (h1 : iloResponseOk (transport (iloCandidateUrl indicator country_iso3 ".")) = false)
    (h2 : iloResponseOk (transport (iloCandidateUrl indicator country_iso3 "..")) = false)
    (h3 : iloResponseOk (transport (iloCandidateUrl indicator country_iso3 "...")) = true) :
    (iloProbe transport indicator country_iso3 now ⟨[]⟩).requested =
      [iloCandidateUrl indicator country_iso3 ".",
       iloCandidateUrl indicator country_iso3 "..",
       iloCandidateUrl indicator country_iso3 "..."] ∧
    iloCandidateUrl indicator country_iso3 "...." ∉
      (iloProbe transport indicator country_iso3 now ⟨[]⟩).requested ∧
    iloCandidateUrl indicator country_iso3 "....." ∉
      (iloProbe transport indicator country_iso3 now ⟨[]⟩).requested ∧
    (iloProbe transport indicator country_iso3 now ⟨[]⟩).body =
      (transport (iloCandidateUrl indicator country_iso3 "...")).body ∧
    (∀ s : String, String.mk (s.data.take 3) ≠ "DF_" → iloDataflow s = "DF_" ++ s) ∧
    (∀ s : String, String.mk (s.data.take 3) = "DF_" → iloDataflow s = s) := by
  simp only [iloCandidateUrl] at h1 h2 h3
  have hrun : iloProbe transport indicator country_iso3 now ⟨[]⟩ =
      ⟨[iloBaseUrl indicator country_iso3 ++ "." ++ iloQuerySuffix,
        iloBaseUrl indicator country_iso3 ++ ".." ++ iloQuerySuffix,
        iloBaseUrl indicator country_iso3 ++ "..." ++ iloQuerySuffix],
       cachePut ⟨[]⟩ (iloBaseUrl indicator country_iso3 ++ "..." ++ iloQuerySuffix)
         (transport (iloBaseUrl indicator country_iso3 ++ "..." ++ iloQuerySuffix)).body now,
       (transport (iloBaseUrl indicator country_iso3 ++ "..." ++ iloQuerySuffix)).body⟩ := by
    simp only [iloProbe, iloKeySuffixes]
    rw [iloProbeLoop_cons_fail transport _ _ now "." _ h1,
        iloProbeLoop_cons_fail transport _ _ now ".." _ h2,
        iloProbeLoop_cons_success transport _ _ now "..." _ h3]
  have hne4 : ∀ k : String, "....".length ≠ k.length →
      iloCandidateUrl indicator country_iso3 "...." ≠ iloCandidateUrl indicator country_iso3 k :=
    fun k hk => iloCandidateUrl_ne_of_ks_length indicator country_iso3 "...." k hk
  have hne5 : ∀ k : String, ".....".length ≠ k.length →
      iloCandidateUrl indicator country_iso3 "....." ≠ iloCandidateUrl indicator country_iso3 k :=
    fun k hk => iloCandidateUrl_ne_of_ks_length indicator country_iso3 "....." k hk
  refine ⟨by simp [hrun, iloCandidateUrl], ?_, ?_, by simp [hrun, iloCandidateUrl], ?_, ?_⟩
  · rw [hrun]
    intro hmem
    simp only [iloCandidateUrl] at hmem hne4
    simp only [List.mem_cons, List.not_mem_nil, or_false] at hmem
    rcases hmem with h | h | h
    · exact hne4 "." (by decide) (by simpa [iloCandidateUrl] using h)
    · exact hne4 ".." (by decide) (by simpa [iloCandidateUrl] using h)
    · exact hne4 "..." (by decide) (by simpa [iloCandidateUrl] using h)
  · rw [hrun]
    intro hmem
    simp only [iloCandidateUrl] at hmem hne5
    simp only [List.mem_cons, List.not_mem_nil, or_false] at hmem
    rcases hmem with h | h | h
    · exact hne5 "." (by decide) (by simpa [iloCandidateUrl] using h)
    · exact hne5 ".." (by decide) (by simpa [iloCandidateUrl] using h)
    · exact hne5 "..." (by decide) (by simpa [iloCandidateUrl] using h)
  · intro s hs
    simp [iloDataflow, hs]
  · intro s hs
    simp [iloDataflow, hs]

/-- Witness for `ilo_probe_first_success`: against `iloMockTransport`, the
probe requests exactly the 1-, 2- and 3-dot candidate URLs. -/
theorem ilo_probe_first_success_witness :
    iloResponseOk (iloMockTransport (iloCandidateUrl "TRU" "SDN" ".")) = false ∧
    iloResponseOk (iloMockTransport (iloCandidateUrl "TRU" "SDN" "..")) = false ∧
    iloResponseOk (iloMockTransport (iloCandidateUrl "TRU" "SDN" "...")) = true ∧
    (iloProbe iloMockTransport "TRU" "SDN" 0 ⟨[]⟩).requested =
      [iloCandidateUrl "TRU" "SDN" ".",
       iloCandidateUrl "TRU" "SDN" "..",
       iloCandidateUrl "TRU" "SDN" "..."] :=
  ⟨by decide, by decide, by decide,
   (ilo_probe_first_success iloMockTransport "TRU" "SDN" 0
     (by decide) (by decide) (by decide)).1⟩

/-- Witness for `year_filter_encoders_spec`: the no-filter default yields the
empty string for every provider. -/
theorem year_filter_encoders_spec_witness :
    (⟨false, -1, -1⟩ : FilterResult).has_year_filter = false ∧
    (EncodeWorldBankYearFilter ⟨false, -1, -1⟩ = "" ∧
     EncodeWHOYearFilter ⟨false, -1, -1⟩ = "" ∧
     EncodeFAOYearFilter ⟨false, -1, -1⟩ = "" ∧
     EncodeUNHCRYearFilter ⟨false, -1, -1⟩ = "" ∧
     EncodeILOYearFilter ⟨false, -1, -1⟩ = "") :=
  ⟨rfl, year_filter_encoders_spec.2.2.2 ⟨false, -1, -1⟩ rfl⟩

/-- When every candidate fails, the probe loop ends with an empty body. -/
theorem iloProbeLoop_all_fail (transport : String → HttpResponseData)
    (base suffix : String) (now : Nat) :
    ∀ l : List String,
      (∀ ks ∈ l, iloResponseOk (transport (base ++ ks ++ suffix)) = false) →
      (iloProbeLoop transport base suffix now l ⟨[]⟩).body = "" := by
  intro l
  induction l with
  | nil => intro _; rfl
  | cons ks rest ih =>
    intro h
    rw [iloProbeLoop_cons_fail transport base suffix now ks rest (h ks (by simp))]
    exact ih (fun k hk => h k (by simp [hk]))

/-- **C3.** Provider fetch failure is non-fatal and silent: for every
provider (each country/page sub-fetch of WorldBank, WHO, FAO, UNHCR, ILO), a
transport error or non-200 status, and likewise a malformed JSON body, makes
that fetch contribute zero rows to the caller-owned buffer — the fetch
functions are total, so no error is ever raised to the caller — and the
per-country `Init` loop keeps concatenating the remaining countries'
contributions after such a failure. -/
theorem provider_fetch_errors_nonfatal :
    -- WorldBank: failing first-page response ⇒ zero rows
    (∀ (jsonRead : String → Option Json) (transport : String → HttpResponseData)
        (indicator c : String) (f : FilterResult) (now fuel : Nat),
      ((transport (wbPageUrl indicator c f 1)).status_code ≠ 200 ∨
        (transport (wbPageUrl indicator c f 1)).error ≠ "") →
      (FetchWorldBankData jsonRead transport indicator c f now fuel ⟨[]⟩).rows = []) ∧
    -- WorldBank: malformed first-page body ⇒ zero rows
    (∀ (jsonRead : String → Option Json) (transport : String → HttpResponseData)
        (indicator c : String) (f : FilterResult) (now fuel : Nat),
      jsonRead (transport (wbPageUrl indicator c f 1)).body = none →
      (FetchWorldBankData jsonRead transport indicator c f now fuel ⟨[]⟩).rows = []) ∧
    -- WHO: failing response ⇒ zero rows; malformed body ⇒ zero rows
    (∀ (jsonRead : String → Option Json) (transport : String → HttpResponseData)
        (indicator c : String) (now : Nat),
      ((transport (whoUrl indicator c)).status_code ≠ 200 ∨
        (transport (whoUrl indicator c)).error ≠ "") →
      (FetchWHOData jsonRead transport indicator c now ⟨[]⟩).rows = []) ∧
    (∀ (jsonRead : String → Option Json) (transport : String → HttpResponseData)
        (indicator c : String) (now : Nat),
      jsonRead (transport (whoUrl indicator c)).body = none →
      (FetchWHOData jsonRead transport indicator c now ⟨[]⟩).rows = []) ∧
    -- FAO: failing response ⇒ zero rows; malformed body ⇒ zero rows
    (∀ (jsonRead : String → Option Json) (transport : String → HttpResponseData)
        (dataset element c : String) (now : Nat),
      ((transport (faoUrl dataset (GetFAOAreaCode c))).status_code ≠ 200 ∨
        (transport (faoUrl dataset (GetFAOAreaCode c))).error ≠ "") →
      (FetchFAOData jsonRead transport dataset element c now ⟨[]⟩).rows = []) ∧
    (∀ (jsonRead : String → Option Json) (transport : String → HttpResponseData)
        (dataset element c : String) (now : Nat),
      jsonRead (transport (faoUrl dataset (GetFAOAreaCode c))).body = none →
      (FetchFAOData jsonRead transport dataset element c now ⟨[]⟩).rows = []) ∧
    -- UNHCR: when both role queries fail, the whole country fetch is empty
    (∀ (jsonRead : String → Option Json) (transport : String → HttpResponseData)
        (population_type c : String) (now : Nat),
      ((transport (unhcrUrl "coo" c)).status_code ≠ 200 ∨
        (transport (unhcrUrl "coo" c)).error ≠ "") →
      ((transport (unhcrUrl "coa" c)).status_code ≠ 200 ∨
        (transport (unhcrUrl "coa" c)).error ≠ "") →
      (FetchUNHCRData jsonRead transport population_type c now ⟨[]⟩).rows = []) ∧
    -- ILO: when every candidate URL fails, the fetch is empty
    (∀ (jsonRead : String → Option Json) (transport : String → HttpResponseData)
        (indicator c : String) (now : Nat),
      (∀ ks ∈ iloKeySuffixes,
        iloResponseOk (transport (iloCandidateUrl indicator c ks)) = false) →
      (FetchILOData jsonRead transport indicator c now ⟨[]⟩).rows = []) ∧
    -- ILO: a malformed probe body yields an empty fetch
    (∀ (jsonRead : String → Option Json) (transport : String → HttpResponseData)
        (indicator c : String) (now : Nat) (cache : ResponseCache),
      jsonRead (iloProbe transport indicator c now cache).body = none →
      (FetchILOData jsonRead transport indicator c now cache).rows = []) ∧
    -- the per-country Init loop continues with the remaining countries
    (∀ (jsonRead : String → Option Json) (transport : String → HttpResponseData)
        (indicator : String) (f : FilterResult) (now fuel : Nat) (c : String)
        (rest : List String) (cache : ResponseCache),
      (wbInitRows jsonRead transport indicator f now fuel (c :: rest) cache).rows =
        (FetchWorldBankData jsonRead transport indicator c f now fuel cache).rows ++
        (wbInitRows jsonRead transport indicator f now fuel rest
          (FetchWorldBankData jsonRead transport indicator c f now fuel cache).cache).rows) := by
  refine ⟨?_, ?_, ?_, ?_, ?_, ?_, ?_, ?_, ?_, ?_⟩
  · intro jsonRead transport indicator c f now fuel herr
    cases fuel with
    | zero => rfl
    | succ n =>
      rcases herr with h | h <;>
        simp [FetchWorldBankData, wbFetchLoop, cacheGet, cacheFind, h]
  · intro jsonRead transport indicator c f now fuel hjson
    cases fuel with
    | zero => rfl
    | succ n =>
      by_cases hok : (transport (wbPageUrl indicator c f 1)).status_code = 200 ∧
          (transport (wbPageUrl indicator c f 1)).error = "" <;>
        simp [FetchWorldBankData, wbFetchLoop, wbParsePage, cacheGet, cacheFind, hok, hjson]
  · intro jsonRead transport indicator c now herr
    exact (fetchCachedUrl_error jsonRead transport now ⟨[]⟩ (whoUrl indicator c)
      (whoDocRows indicator c) rfl herr).1
  · intro jsonRead transport indicator c now hjson
    exact fetchCachedUrl_malformed jsonRead transport now ⟨[]⟩ (whoUrl indicator c)
      (whoDocRows indicator c) rfl hjson
  · intro jsonRead transport dataset element c now herr
    exact (fetchCachedUrl_error jsonRead transport now ⟨[]⟩
      (faoUrl dataset (GetFAOAreaCode c)) (faoDocRows dataset (asciiLower element))
      rfl herr).1
  · intro jsonRead transport dataset element c now hjson
    exact fetchCachedUrl_malformed jsonRead transport now ⟨[]⟩
      (faoUrl dataset (GetFAOAreaCode c)) (faoDocRows dataset (asciiLower element))
      rfl hjson
  · intro jsonRead transport population_type c now herr1 herr2
    have r1 := fetchCachedUrl_error jsonRead transport now ⟨[]⟩ (unhcrUrl "coo" c)
      (unhcrDocRows (GetUNHCRFieldName population_type)) rfl herr1
    have hcache1 : (FetchUNHCRPage jsonRead transport (unhcrUrl "coo" c)
        (GetUNHCRFieldName population_type) now ⟨[]⟩).cache = ⟨[]⟩ := r1.2
    have r2 := fetchCachedUrl_error jsonRead transport now ⟨[]⟩ (unhcrUrl "coa" c)
      (unhcrDocRows (GetUNHCRFieldName population_type)) rfl herr2
    show (FetchUNHCRPage jsonRead transport (unhcrUrl "coo" c)
        (GetUNHCRFieldName population_type) now ⟨[]⟩).rows ++
      (FetchUNHCRPage jsonRead transport (unhcrUrl "coa" c)
        (GetUNHCRFieldName population_type) now
        (FetchUNHCRPage jsonRead transport (unhcrUrl "coo" c)
          (GetUNHCRFieldName population_type) now ⟨[]⟩).cache).rows = []
    rw [hcache1]
    rw [show (FetchUNHCRPage jsonRead transport (unhcrUrl "coo" c)
        (GetUNHCRFieldName population_type) now ⟨[]⟩).rows = [] from r1.1]
    rw [show (FetchUNHCRPage jsonRead transport (unhcrUrl "coa" c)
        (GetUNHCRFieldName population_type) now ⟨[]⟩).rows = [] from r2.1]
    rfl
  · intro jsonRead transport indicator c now hfail
    have hbody : (iloProbe transport indicator c now ⟨[]⟩).body = "" := by
      apply iloProbeLoop_all_fail transport (iloBaseUrl indicator c) iloQuerySuffix now
        iloKeySuffixes
      intro ks hks
      exact hfail ks hks
    simp [FetchILOData, hbody]
  · intro jsonRead transport indicator c now cache hjson
    by_cases hb : (iloProbe transport indicator c now cache).body = "" <;>
      simp [FetchILOData, hb, hjson]
  · intro jsonRead transport indicator f now fuel c rest cache
    rfl

/-- Witness for `provider_fetch_errors_nonfatal`: against an always-failing
transport, the WorldBank and ILO fetches return zero rows. -/
theorem provider_fetch_errors_nonfatal_witness :
    (failTransport (wbPageUrl "X" "SDN" ⟨false, -1, -1⟩ 1)).status_code ≠ 200 ∧
    (FetchWorldBankData noneJsonRead failTransport "X" "SDN" ⟨false, -1, -1⟩ 0 5 ⟨[]⟩).rows
      = [] ∧
    (FetchILOData noneJsonRead failTransport "X" "SDN" 0 ⟨[]⟩).rows = [] :=
  ⟨by decide,
   provider_fetch_errors_nonfatal.1 noneJsonRead failTransport "X" "SDN"
     ⟨false, -1, -1⟩ 0 5 (Or.inl (by decide)),
   (provider_fetch_errors_nonfatal.2.2.2.2.2.2.2.1) noneJsonRead failTransport "X" "SDN" 0
     (fun ks _ => by simp [iloResponseOk, failTransport])⟩

/-- **C5.** `FetchUNHCRData` queries the population endpoint twice per
country — once with the country as country of origin (`coo`) and once as
country of asylum (`coa`) — and in each response, a record whose value for
the requested population-type field parses to zero (including an absent field
and an unparsable string, both of which parse to 0) is excluded, while every
record with a non-zero parsed value in either role is included with that
value. -/
theorem unhcr_zero_values_dropped :
    (∀ (jsonRead : String → Option Json) (transport : String → HttpResponseData)
        (population_type c : String) (now : Nat) (cache : ResponseCache),
      (FetchUNHCRData jsonRead transport population_type c now cache).rows =
        (FetchUNHCRPage jsonRead transport (unhcrUrl "coo" c)
          (GetUNHCRFieldName population_type) now cache).rows ++
        (FetchUNHCRPage jsonRead transport (unhcrUrl "coa" c)
          (GetUNHCRFieldName population_type) now
          (FetchUNHCRPage jsonRead transport (unhcrUrl "coo" c)
            (GetUNHCRFieldName population_type) now cache).cache).rows) ∧
    (∀ (field_name : String) (items : List Json),
      unhcrItemsRows field_name items =
        (items.filter (fun e => ParseUNHCRValue (objGet (some e) field_name) != 0)).map
          (fun e => unhcrMkRow field_name (ParseUNHCRValue (objGet (some e) field_name)) e)) ∧
    ParseUNHCRValue none = 0 ∧
    (∀ s : String, stollModel s = none → ParseUNHCRValue (some (.jstr s)) = 0) := by
  refine ⟨fun _ _ _ _ _ _ => rfl, ?_, rfl, ?_⟩
  · intro field_name items
    induction items with
    | nil => rfl
    | cons e rest ih =>
      simp only [unhcrItemsRows] at ih ⊢
      by_cases h : ParseUNHCRValue (objGet (some e) field_name) = 0 <;>
        simp [List.filterMap_cons, List.filter_cons, h, ih]
  · intro s hs
    simp [ParseUNHCRValue, hs]

/-- Witness for `unhcr_zero_values_dropped`: the unparsable string value
`"n/a"` parses to 0 and such a record is dropped, while an integer value 7 is
kept. -/
theorem unhcr_zero_values_dropped_witness :
    stollModel "n/a" = none ∧
    ParseUNHCRValue (some (.jstr "n/a")) = 0 ∧
    unhcrItemsRows "refugees"
        [.jobj [("refugees", .jstr "n/a")], .jobj [("refugees", .jint 7)]] =
      [unhcrMkRow "refugees" 7 (.jobj [("refugees", .jint 7)])] :=
  ⟨rfl,
   unhcr_zero_values_dropped.2.2.2 "n/a" rfl,
   (unhcr_zero_values_dropped.2.1 "refugees"
      [.jobj [("refugees", .jstr "n/a")], .jobj [("refugees", .jint 7)]]).trans rfl⟩

/-- **C6.** For every provider table function, an empty required primary
identifier (WorldBank/WHO/ILO indicator, FAO dataset or element, UNHCR
population type) makes `Bind` fail immediately with the provider's
descriptive error message; a successful bind is only possible for a non-empty
identifier, so the query never silently proceeds to zero rows. -/
theorem bind_rejects_empty_identifier :
    (∀ ca, wbBind "" ca =
      .error "SUDAN: The indicator parameter cannot be empty.") ∧
    (∀ ca, whoBind "" ca =
      .error "SUDAN: The indicator parameter cannot be empty for SUDAN_WHO().") ∧
    (∀ ca, iloBind "" ca =
      .error "SUDAN: The indicator parameter cannot be empty for SUDAN_ILO().") ∧
    (∀ element ca, faoBind "" element ca =
      .error "SUDAN: The dataset parameter cannot be empty for SUDAN_FAO().") ∧
    (∀ dataset ca, dataset ≠ "" → faoBind dataset "" ca =
      .error "SUDAN: The element parameter cannot be empty for SUDAN_FAO().") ∧
    (∀ ca, unhcrBind "" ca =
      .error "SUDAN: The population_type parameter cannot be empty for SUDAN_UNHCR(). Valid types: 'refugees', 'idps', 'asylum_seekers', 'returned_refugees', 'stateless'.") ∧
    (∀ indicator ca bd, wbBind indicator ca = .ok bd → indicator ≠ "") ∧
    (∀ population_type ca bd, unhcrBind population_type ca = .ok bd →
      population_type ≠ "") := by
  refine ⟨fun ca => rfl, fun ca => rfl, fun ca => rfl, fun element ca => rfl, ?_,
    fun ca => rfl, ?_, ?_⟩
  · intro dataset ca h
    simp [faoBind, h]
  · intro indicator ca bd h hind
    rw [hind] at h
    exact absurd h (by simp [wbBind])
  · intro population_type ca bd h hpt
    rw [hpt] at h
    exact absurd h (by simp [unhcrBind])

/-- Witness for `bind_rejects_empty_identifier`: `SUDAN_FAO('QCL', '')` is
rejected for its empty element. -/
theorem bind_rejects_empty_identifier_witness :
    ("QCL" : String) ≠ "" ∧
    faoBind "QCL" "" none =
      .error "SUDAN: The element parameter cannot be empty for SUDAN_FAO()." :=
  ⟨by decide, bind_rejects_empty_identifier.2.2.2.2.1 "QCL" none (by decide)⟩

/-- **C8.** In `FetchFAOData`, a record lacking a `Value` field, or whose
`Value` fails numeric coercion, produces a row with `has_value = false`
rather than an error (the parser is total); a record whose `Value` is the
string `"12.5"` produces value 12.5 with `has_value = true`; `Year` is
accepted as an integer or numeric string, with string-coercion failure
defaulting to 0 rather than raising. -/
theorem fao_value_year_coercion :
    (∀ (dataset element_lower : String) (elem : Json) (row : FAODataRow),
      faoParseRecord dataset element_lower elem = some row →
      row.has_value = (faoParseValue (objGet (some elem) "Value")).2 ∧
      row.value = (faoParseValue (objGet (some elem) "Value")).1 ∧
      row.year = faoParseYear (objGet (some elem) "Year")) ∧
    faoParseValue none = (0, false) ∧
    (∀ s : String, stodModel s = none → faoParseValue (some (.jstr s)) = (0, false)) ∧
    (∀ (s : String) (q : Rat), stodModel s = some q →
      faoParseValue (some (.jstr s)) = (q, true)) ∧
    faoParseValue (some (.jstr "12.5")) = (25 / 2, true) ∧
    (∀ s : String, stoiModel s = none → faoParseYear (some (.jstr s)) = 0) ∧
    (∀ (s : String) (k : Int), stoiModel s = some k →
      faoParseYear (some (.jstr s)) = k) ∧
    (∀ n : Int, -(2 ^ 31) ≤ n → n < 2 ^ 31 → faoParseYear (some (.jint n)) = n) := by
  have h125 : stodModel "12.5" = some (25 / 2) := by
    have h1 : "12.5".data = ['1', '2', '.', '5'] := rfl
    have hw1 : Char.isWhitespace '1' = false := rfl
    have hd1 : Char.isDigit '1' = true := rfl
    have hd2 : Char.isDigit '2' = true := rfl
    have hdot : Char.isDigit '.' = false := rfl
    have hd5 : Char.isDigit '5' = true := rfl
    have e1 : digitsVal ['1', '2'] = 12 := rfl
    have e2 : digitsVal ['5'] = 5 := rfl
    simp only [stodModel, h1, List.dropWhile, List.takeWhile, hw1, hd1, hd2, hdot, hd5,
      e1, e2]
    norm_num
    rfl
  refine ⟨?_, rfl, ?_, ?_, by simp [faoParseValue, h125], ?_, ?_, ?_⟩
  · intro dataset element_lower elem row h
    simp only [faoParseRecord] at h
    split at h
    · exact absurd h (by simp)
    · rw [Option.some_inj] at h
      subst h
      exact ⟨rfl, rfl, rfl⟩
  · intro s hs
    simp [faoParseValue, hs]
  · intro s q hs
    simp [faoParseValue, hs]
  · intro s hs
    simp [faoParseYear, hs]
  · intro s k hs
    simp [faoParseYear, hs]
  · intro n h1 h2
    simp only [faoParseYear, toInt32]
    omega

/-- Witness for `fao_value_year_coercion`: a record with no `Value` field
parses to a row (not an error) with `has_value = false`; `"abc"` fails
coercion; `"12.5"` coerces to 12.5. -/
theorem fao_value_year_coercion_witness :
    faoParseRecord "QCL" "production" (.jobj [])
      = some ⟨"QCL", "", "", "", 0, 0, false, ""⟩ ∧
    (⟨"QCL", "", "", "", 0, 0, false, ""⟩ : FAODataRow).has_value = false ∧
    stodModel "abc" = none ∧
    faoParseValue (some (.jstr "abc")) = (0, false) ∧
    stoiModel "19xx" = some 19 ∧
    faoParseYear (some (.jstr "19xx")) = 19 :=
  ⟨rfl,
   ((fao_value_year_coercion.1 "QCL" "production" (.jobj [])
      ⟨"QCL", "", "", "", 0, 0, false, ""⟩ rfl).1).trans rfl,
   rfl,
   fao_value_year_coercion.2.2.1 "abc" rfl,
   rfl,
   fao_value_year_coercion.2.2.2.2.2.2.1 "19xx" 19 rfl⟩

/-- One `Execute` call within the invariant: the cursor advances by exactly
the batch size and stays within bounds, and the batch is exactly that slice
of the buffer. -/
theorem cursorExecute_spec {ρ β : Type} (emit : ρ → β) (rows : List ρ) (cur : Nat)
    (h : cur ≤ rows.length) :
    (cursorExecute emit rows cur).1 =
      cur + min STANDARD_VECTOR_SIZE (rows.length - cur) ∧
    (cursorExecute emit rows cur).1 ≤ rows.length ∧
    (cursorExecute emit rows cur).2 =
      ((rows.drop cur).take (min STANDARD_VECTOR_SIZE (rows.length - cur))).map emit := by
  have hmin := Nat.min_le_right STANDARD_VECTOR_SIZE (rows.length - cur)
  by_cases h0 : min STANDARD_VECTOR_SIZE (rows.length - cur) = 0 <;>
    simp [cursorExecute, h0] <;> omega

/-- Draining the cursor with enough calls emits exactly the tail of the
buffer from the cursor position, in order. -/
theorem cursorDrain_eq {ρ β : Type} (emit : ρ → β) (rows : List ρ) :
    ∀ (fuel cur : Nat), cur ≤ rows.length →
      rows.length - cur ≤ fuel * STANDARD_VECTOR_SIZE →
      cursorDrain emit rows fuel cur = (rows.drop cur).map emit := by
  intro fuel
  induction fuel with
  | zero =>
    intro cur hc hf
    have hf' : rows.length - cur = 0 := by simpa using hf
    simp [cursorDrain, List.drop_eq_nil_of_le (show rows.length ≤ cur by omega)]
  | succ n ih =>
    intro cur hc hf
    have hsvs : STANDARD_VECTOR_SIZE = 2048 := rfl
    by_cases h0 : min STANDARD_VECTOR_SIZE (rows.length - cur) = 0
    · have h0' : min 2048 (rows.length - cur) = 0 := by rw [hsvs] at h0; exact h0
      have hlen : rows.length ≤ cur := by omega
      have hstep : cursorExecute emit rows cur = (cur, []) := by
        simp [cursorExecute, h0]
      have hrec := ih cur hc (by rw [hsvs]; omega)
      rw [cursorDrain, hstep]
      simp [hrec, List.drop_eq_nil_of_le hlen]
    · obtain ⟨h1, h2, h3⟩ := cursorExecute_spec emit rows cur hc
      have hb1 : cur + min STANDARD_VECTOR_SIZE (rows.length - cur) ≤ rows.length := by
        have := Nat.min_le_right STANDARD_VECTOR_SIZE (rows.length - cur)
        omega
      have hb2 : rows.length - (cur + min STANDARD_VECTOR_SIZE (rows.length - cur)) ≤
          n * STANDARD_VECTOR_SIZE := by
        rw [hsvs] at hf ⊢
        omega
      rw [cursorDrain, h1, h3]
      rw [ih (cur + min STANDARD_VECTOR_SIZE (rows.length - cur)) hb1 hb2]
      rw [List.drop_add, ← List.map_append, List.take_append_drop]

/-- **C9.** For the WorldBank and ILO cursors (the shared `Execute` shape):
from a state with `current_row ≤ rows.size()`, each `Execute` call emits
exactly `min(STANDARD_VECTOR_SIZE, rows.size() - current_row)` rows starting
at `current_row` and advances `current_row` by that amount, keeping
`current_row ≤ rows.size()`; a call after exhaustion emits zero rows and
leaves the cursor in place; a row with `has_value = false` is emitted with a
null value, never 0; and draining the cursor from 0 outputs every buffered
row exactly once, in buffer order. -/
theorem execute_cursor_spec :
    (∀ s : WBState, s.current_row ≤ s.rows.length →
      (wbExecute s).1.current_row =
        s.current_row + min STANDARD_VECTOR_SIZE (s.rows.length - s.current_row) ∧
      (wbExecute s).1.current_row ≤ s.rows.length ∧
      (wbExecute s).2 = ((s.rows.drop s.current_row).take
        (min STANDARD_VECTOR_SIZE (s.rows.length - s.current_row))).map wbEmitRow) ∧
    (∀ s : WBState, s.current_row = s.rows.length →
      (wbExecute s).2 = [] ∧ (wbExecute s).1.current_row = s.current_row) ∧
    (∀ r : WBDataRow, r.has_value = false → (wbEmitRow r).value = none) ∧
    (∀ r : WBDataRow, r.has_value = true → (wbEmitRow r).value = some r.value) ∧
    (∀ rows : List WBDataRow,
      cursorDrain wbEmitRow rows rows.length 0 = rows.map wbEmitRow) ∧
    (∀ s : ILOState, s.current_row ≤ s.rows.length →
      (iloExecute s).1.current_row =
        s.current_row + min STANDARD_VECTOR_SIZE (s.rows.length - s.current_row) ∧
      (iloExecute s).1.current_row ≤ s.rows.length ∧
      (iloExecute s).2 = ((s.rows.drop s.current_row).take
        (min STANDARD_VECTOR_SIZE (s.rows.length - s.current_row))).map iloEmitRow) ∧
    (∀ s : ILOState, s.current_row = s.rows.length →
      (iloExecute s).2 = [] ∧ (iloExecute s).1.current_row = s.current_row) ∧
    (∀ r : ILODataRow, r.has_value = false → (iloEmitRow r).value = none) ∧
    (∀ rows : List ILODataRow,
      cursorDrain iloEmitRow rows rows.length 0 = rows.map iloEmitRow) := by
  have hexh : ∀ (len : Nat), min STANDARD_VECTOR_SIZE (len - len) = 0 := by
    intro len
    simp
  refine ⟨?_, ?_, ?_, ?_, ?_, ?_, ?_, ?_, ?_⟩
  · intro s hs
    obtain ⟨h1, h2, h3⟩ := cursorExecute_spec wbEmitRow s.rows s.current_row hs
    exact ⟨h1, h2, h3⟩
  · intro s hs
    constructor <;> simp [wbExecute, cursorExecute, hs]
  · intro r hr
    simp [wbEmitRow, hr]
  · intro r hr
    simp [wbEmitRow, hr]
  · intro rows
    have := cursorDrain_eq wbEmitRow rows rows.length 0 (Nat.zero_le _)
      (by rw [show STANDARD_VECTOR_SIZE = 2048 from rfl]; omega)
    simpa using this
  · intro s hs
    obtain ⟨h1, h2, h3⟩ := cursorExecute_spec iloEmitRow s.rows s.current_row hs
    exact ⟨h1, h2, h3⟩
  · intro s hs
    constructor <;> simp [iloExecute, cursorExecute, hs]
  · intro r hr
    simp [iloEmitRow, hr]
  · intro rows
    have := cursorDrain_eq iloEmitRow rows rows.length 0 (Nat.zero_le _)
      (by rw [show STANDARD_VECTOR_SIZE = 2048 from rfl]; omega)
    simpa using this

/-- Witness for `execute_cursor_spec`: a two-row buffer is fully emitted by
one call, with the `has_value = false` row carrying a null value. -/
theorem execute_cursor_spec_witness :
    (⟨[⟨"I", "N", "SD", "Sudan", 2020, 5, true⟩,
       ⟨"I", "N", "SD", "Sudan", 2021, 0, false⟩], 0⟩ : WBState).current_row ≤
      (⟨[⟨"I", "N", "SD", "Sudan", 2020, 5, true⟩,
         ⟨"I", "N", "SD", "Sudan", 2021, 0, false⟩], 0⟩ : WBState).rows.length ∧
    (wbExecute ⟨[⟨"I", "N", "SD", "Sudan", 2020, 5, true⟩,
        ⟨"I", "N", "SD", "Sudan", 2021, 0, false⟩], 0⟩).2 =
      [⟨"I", "N", "SD", "Sudan", 2020, some 5⟩, ⟨"I", "N", "SD", "Sudan", 2021, none⟩] :=
  ⟨by decide,
   ((execute_cursor_spec.1 ⟨[⟨"I", "N", "SD", "Sudan", 2020, 5, true⟩,
       ⟨"I", "N", "SD", "Sudan", 2021, 0, false⟩], 0⟩ (by decide)).2.2).trans (by decide)⟩

set_option maxRecDepth 8192 in
/-- **C10.** `SudanWorldBank::BindData.year_filter` is never assigned after
default construction, so every successful bind carries
`{has_year_filter := false, year_start := -1, year_end := -1}`; with such a
filter `EncodeWorldBankYearFilter` returns `""` and every page URL is exactly
the base URL with the fixed query parameters and the page number — no
`date=` year-filter parameter is ever appended (the WHO, FAO, UNHCR and ILO
URL builders `whoUrl`, `faoUrl`, `unhcrUrl`, `iloCandidateUrl` take no
`FilterResult` at all, mirroring that those fetchers never invoke their
encoders). -/
theorem wb_year_filter_never_set :
    (∀ indicator ca bd, wbBind indicator ca = .ok bd →
      bd.year_filter = ⟨false, -1, -1⟩) ∧
    EncodeWorldBankYearFilter ⟨false, -1, -1⟩ = "" ∧
    (∀ f : FilterResult, f.has_year_filter = false →
      ∀ indicator c page, wbPageUrl indicator c f page =
        wbBaseUrl indicator c ++ "?format=json&per_page=1000&page=" ++ toString page) ∧
    strContains (wbPageUrl "SP.POP.TOTL" "SDN" ⟨false, -1, -1⟩ 1) "date=" = false := by
  refine ⟨?_, rfl, ?_, by decide⟩
  · intro indicator ca bd h
    simp only [wbBind] at h
    split at h
    · exact absurd h (by simp)
    · rw [Except.ok.injEq] at h
      subst h
      rfl
  · intro f hf indicator c page
    simp [wbPageUrl, EncodeWorldBankYearFilter, hf]

/-- Witness for `wb_year_filter_never_set`: the default bind of
`SUDAN_WorldBank('SP.POP.TOTL')` carries the no-filter default, and its
page-1 URL carries no `date=` parameter. -/
theorem wb_year_filter_never_set_witness :
    wbBind "SP.POP.TOTL" none = .ok ⟨"SP.POP.TOTL", ["SDN"], ⟨false, -1, -1⟩⟩ ∧
    (⟨"SP.POP.TOTL", ["SDN"], ⟨false, -1, -1⟩⟩ : WBBindData).year_filter =
      ⟨false, -1, -1⟩ ∧
    (⟨false, -1, -1⟩ : FilterResult).has_year_filter = false ∧
    wbPageUrl "SP.POP.TOTL" "SDN" ⟨false, -1, -1⟩ 1 =
      wbBaseUrl "SP.POP.TOTL" "SDN" ++ "?format=json&per_page=1000&page=" ++
        toString (1 : Int) :=
  ⟨rfl,
   wb_year_filter_never_set.1 "SP.POP.TOTL" none
     ⟨"SP.POP.TOTL", ["SDN"], ⟨false, -1, -1⟩⟩ rfl,
   rfl,
   wb_year_filter_never_set.2.2.1 ⟨false, -1, -1⟩ rfl "SP.POP.TOTL" "SDN" 1⟩

end Sudan
